import Mathlib

/-!
Shallow embedding of mpv's render-abstraction layer excerpt:
`video/out/opengl/ra.c`, `video/out/opengl/ra_gl.c` and
`video/out/opengl/shader_cache.c`.

Pure data (formats, image-format descriptors) is embedded as Lean structures;
the stateful shader cache is embedded as explicit state passing over a
`GlShaderCache` record; the OpenGL backend calls issued by `ra_gl.c` are
embedded as event lists so that call order is provable.  Machine floats only
ever flow through these functions as opaque 32-bit payloads (they are stored,
byte-compared and handed to GL, never computed with), so float values are
represented by their bit patterns as `Nat`s.
-/

set_option maxHeartbeats 1000000
set_option maxRecDepth 100000

/-- Component type classification of a texture format (`enum ra_ctype` is
declared in `ra.h`, outside the excerpt; the members used by the excerpt are
UNKNOWN, UNORM, UINT and FLOAT, with UNKNOWN the zero value). -/
inductive RaCtype where
  | unknown
  | unorm
  | uint
  | float
deriving DecidableEq, Repr

/-- Native texture format descriptor (`struct ra_format`).  The per-component
arrays `component_size[4]` / `component_depth[4]` are modelled as total
functions from the index; the backend-private `struct gl_format` pointer is
modelled by the three GL enums `ra_gl.c` reads from it; `special_imgfmt == 0`
means "no special image format" (NULL pointer).  The special image-format
descriptor that `ra_init_gl` hangs off the format is kept in a side table of
the `Ra` context (see `Ra.special_desc`) because in C it points back at the
format itself. -/
structure RaFormat where
  name : String
  ctype : RaCtype
  num_components : Nat
  pixel_size : Nat
  component_size : Nat → Nat
  component_depth : Nat → Nat
  linear_filter : Bool := false
  renderable : Bool := false
  luminance_alpha : Bool := false
  special_imgfmt : Nat := 0
  gl_internal_format : Nat := 0
  gl_format : Nat := 0
  gl_type : Nat := 0

/-- One plane of a regular (byte-aligned, linearly laid out) image format
(`struct mp_regular_imgfmt_plane`, declared in `video/img_format.h`, outside
the excerpt).  `components` models the fixed `uint8_t components[4]` array. -/
structure MpRegularImgfmtPlane where
  num_components : Nat
  components : Nat → Nat

/-- Regular image-format description (`struct mp_regular_imgfmt`, outside the
excerpt).  `component_pad` is negative when LSBs of each component are unused. -/
structure MpRegularImgfmt where
  component_size : Nat
  component_pad : Int
  planes : List MpRegularImgfmtPlane
  chroma_w : Nat
  chroma_h : Nat

/-- Mapping of a player image format to per-plane texture formats
(`struct ra_imgfmt_desc`).  `planes` models the `ra_format *planes[4]` array
(only the `num_planes` used entries), `components` the `uint8_t
components[4][4]` array. -/
structure RaImgfmtDesc where
  num_planes : Nat := 0
  planes : List RaFormat := []
  components : List (List Nat) := []
  chroma_w : Nat := 0
  chroma_h : Nat := 0
  component_bits : Nat := 0
  component_pad : Int := 0

/-- The render-abstraction context (`struct ra`), restricted to the fields the
excerpt reads.  `createOk` is the oracle for whether the n-th
`renderpass_create` backend call succeeds (the backend compiler may fail);
`mp_get_regular_imgfmt` models the external helper of the same name from
`video/img_format.c` (outside the excerpt); `special_desc` is the side table
holding the `special_imgfmt_desc` objects built by `ra_init_gl`. -/
structure Ra where
  formats : List RaFormat
  glsl_version : Nat
  glsl_es : Bool
  caps_tex_3d : Bool := false
  createOk : Nat → Bool := fun _ => true
  mp_get_regular_imgfmt : Nat → Option MpRegularImgfmt := fun _ => none
  special_desc : Nat → Option RaImgfmtDesc := fun _ => none

/-- Whether a format is tightly packed with no external padding and the same
bit size/depth in all components (`ra_format_is_regular`).  The C loop runs
from component 1; including component 0 in the `all` is equivalent since it
compares equal to itself. -/
def ra_format_is_regular (fmt : RaFormat) : Bool :=
  if fmt.pixel_size == 0 || fmt.num_components == 0 then false
  else if (List.range fmt.num_components).all (fun n =>
      fmt.component_size n == fmt.component_size 0 &&
      fmt.component_depth n == fmt.component_depth 0) then
    fmt.component_size 0 * fmt.num_components == fmt.pixel_size * 8
  else false

/-- Match condition of `ra_find_unorm_format` for one table entry. -/
def unorm_match (bytes_per_component n_components : Nat) (fmt : RaFormat) : Bool :=
  fmt.ctype == RaCtype.unorm && fmt.num_components == n_components &&
  fmt.pixel_size == bytes_per_component * n_components &&
  fmt.component_depth 0 == bytes_per_component * 8 &&
  fmt.linear_filter && ra_format_is_regular fmt

/-- Return a regular filterable format using RA_CTYPE_UNORM
(`ra_find_unorm_format`): the first table entry matching the request. -/
def ra_find_unorm_format (ra : Ra) (bytes_per_component n_components : Nat) :
    Option RaFormat :=
  ra.formats.find? (unorm_match bytes_per_component n_components)

/-- Match condition of `ra_find_uint_format` for one table entry. -/
def uint_match (bytes_per_component n_components : Nat) (fmt : RaFormat) : Bool :=
  fmt.ctype == RaCtype.uint && fmt.num_components == n_components &&
  fmt.pixel_size == bytes_per_component * n_components &&
  fmt.component_depth 0 == bytes_per_component * 8 &&
  ra_format_is_regular fmt

/-- Return a regular format using RA_CTYPE_UINT (`ra_find_uint_format`). -/
def ra_find_uint_format (ra : Ra) (bytes_per_component n_components : Nat) :
    Option RaFormat :=
  ra.formats.find? (uint_match bytes_per_component n_components)

/-- Match condition of `ra_find_float16_format` for one table entry
(`sizeof(float)` is 4). -/
def float16_match (n_components : Nat) (fmt : RaFormat) : Bool :=
  fmt.ctype == RaCtype.float && fmt.num_components == n_components &&
  fmt.pixel_size == 4 * n_components &&
  fmt.component_depth 0 == 16 &&
  fmt.linear_filter && ra_format_is_regular fmt

/-- Return a filterable regular format that uses float16 internally but 32-bit
transfer (`ra_find_float16_format`). -/
def ra_find_float16_format (ra : Ra) (n_components : Nat) : Option RaFormat :=
  ra.formats.find? (float16_match n_components)

/-- Like `ra_find_unorm_format`, but if no fixed-point format is available,
return an unsigned integer format (`find_plane_format`). -/
def find_plane_format (ra : Ra) (bytes n_channels : Nat) : Option RaFormat :=
  match ra_find_unorm_format ra bytes n_channels with
  | some f => some f
  | none => ra_find_uint_format ra bytes n_channels

/-- Per-plane body of the `for` loop of `ra_get_imgfmt_desc`: resolves each
plane with `find_plane_format`, fails on an unrepresentable plane, on MSB
truncation with negative component padding, or on a component-type mismatch
with an earlier plane (the running `ctype` starts as RA_CTYPE_UNKNOWN).
Returns the accumulated `res.planes` / `res.components` contents. -/
def imgfmt_plane_loop (ra : Ra) (regfmt : MpRegularImgfmt) :
    List MpRegularImgfmtPlane → RaCtype → Option (List RaFormat × List (List Nat))
  | [], _ => some ([], [])
  | plane :: rest, ctype =>
    match find_plane_format ra regfmt.component_size plane.num_components with
    | none => none
    | some fmt =>
      let comps := (List.range 4).map
        (fun i => if i < plane.num_components then plane.components i else 0)
      if regfmt.component_size * 8 > fmt.component_depth 0 ∧ regfmt.component_pad < 0 then
        none
      else if ctype ≠ RaCtype.unknown ∧ ctype ≠ fmt.ctype then
        none
      else
        match imgfmt_plane_loop ra regfmt rest fmt.ctype with
        | none => none
        | some (fs, cs) => some (fmt :: fs, comps :: cs)

/-- Put a mapping of imgfmt to texture formats into the result
(`ra_get_imgfmt_desc`); `none` models returning `false`.  When the image
format is not regular, the format table is scanned for a backend special-cased
format; C copies `*special_imgfmt_desc` of the first match, modelled through
the `Ra.special_desc` side table. -/
def ra_get_imgfmt_desc (ra : Ra) (imgfmt : Nat) : Option RaImgfmtDesc :=
  match ra.mp_get_regular_imgfmt imgfmt with
  | some regfmt =>
    match imgfmt_plane_loop ra regfmt regfmt.planes RaCtype.unknown with
    | none => none
    | some (fs, cs) =>
      some { num_planes := regfmt.planes.length
             planes := fs
             components := cs
             chroma_w := regfmt.chroma_w
             chroma_h := regfmt.chroma_h
             component_bits := regfmt.component_size * 8
             component_pad := regfmt.component_pad }
  | none =>
    if ra.formats.any (fun f => f.special_imgfmt == imgfmt) then
      ra.special_desc imgfmt
    else
      none

/-! ## Shader cache data model (`shader_cache.c`) -/

/-- Type of a render-pass input (`enum ra_vartype`, declared in `ra.h` outside
the excerpt; the zero value is never read before being overwritten).
`shader_cache.c` calls the storage-buffer member RA_VARTYPE_BUF_RW while
`ra_gl.c` calls it RA_VARTYPE_SSBO; the header outside the excerpt ties the two
names to one value, modelled here as the single constructor `buf_rw`. -/
inductive RaVartype where
  | invalid
  | int
  | float
  | byte_unorm
  | tex
  | img_w
  | buf_rw
deriving DecidableEq, Repr

/-- Size in bytes of one element of a variable type (`vartype_size` in
`ra.c`); `sizeof(int)` and `sizeof(float)` are 4. -/
def vartype_size : RaVartype → Nat
  | RaVartype.int => 4
  | RaVartype.float => 4
  | RaVartype.byte_unorm => 1
  | _ => 0

/-- Description of one render-pass input (`struct ra_renderpass_input`). -/
structure RaRenderpassInput where
  name : String
  type : RaVartype := RaVartype.invalid
  dim_v : Nat := 1
  dim_m : Nat := 1
  binding : Nat := 0
deriving DecidableEq, Repr

/-- Size of the data a `ra_renderpass_input_val.data` points to; 0 for
non-primitive types such as textures (`ra_render_pass_input_data_size`). -/
def ra_render_pass_input_data_size (input : RaRenderpassInput) : Nat :=
  vartype_size input.type * input.dim_v * input.dim_m

/-- Contents of the C `union uniform_val` (36 bytes: `float f[9]`, overlaid
with `int i[4]` and the object pointers), modelled as nine 32-bit word slots.
Every write made by the excerpt stores whole words (float bit patterns, ints,
or an object handle in slot 0), and every `memcmp` made by the excerpt
compares a whole number of words, so the word-slot granularity is exact. -/
abbrev UniformVal := List Nat

/-- Zero-initialized union (`struct sc_cached_uniform u = {0}` and the
implicit zeroing in `find_uniform`). -/
def zeroVal : UniformVal := List.replicate 9 0

/-- Store `xs` into the leading word slots of a union value, keeping the rest
(models the field assignments of the `gl_sc_uniform_*` setters). -/
def writeWords (base : UniformVal) (xs : List Nat) : UniformVal :=
  xs ++ base.drop xs.length

/-- Result of `memcmp(&a, &b, size) != 0` on two unions, comparing the first
`size` bytes.  All sizes produced for primitive uniform types are multiples of
4 (float/int words), so the comparison acts on whole word slots. -/
def uniform_val_ne (a b : UniformVal) (size : Nat) : Bool :=
  !(List.take ((size + 3) / 4) a == List.take ((size + 3) / 4) b)

/-- Pending uniform of the in-flight shader (`struct sc_uniform`); NULL
strings are modelled as empty strings. -/
structure ScUniform where
  input : RaRenderpassInput
  glsl_type : String := ""
  v : UniformVal := zeroVal
  buffer_format : String := ""
deriving DecidableEq

/-- Freshly initialized `struct sc_uniform new` of `find_uniform`: everything
zeroed except `dim_v = dim_m = 1`, carrying the (kept or newly copied) name. -/
def sc_uniform_blank (name : String) : ScUniform :=
  { input := { name := name } }

/-- Render-pass type (`enum ra_renderpass_type` from `ra.h`, outside the
excerpt; the zero value is the "not yet set" state of zeroed params). -/
inductive RaRenderpassType where
  | invalid
  | raster
  | compute
deriving DecidableEq, Repr

/-- Numeric code of a render-pass type as printed by `"type %d\n"` into the
cache key; the header outside the excerpt fixes the values, and only their
distinctness is relied upon. -/
def renderpass_type_code : RaRenderpassType → Nat
  | RaRenderpassType.invalid => 0
  | RaRenderpassType.raster => 1
  | RaRenderpassType.compute => 2

/-- Static description of a render pass (`struct ra_renderpass_params`).
`vertex_attribs = none` models the NULL pointer present before
`gl_sc_set_vertex_format` was called; the `{0}`-terminated C array is the
list.  Blend factors are the numeric values of `enum ra_blend`.  The on-disk
`cached_program` blob is not modelled (the claims run with no cache
directory configured, `sc->cache_dir == NULL`). -/
structure RaRenderpassParams where
  type : RaRenderpassType := RaRenderpassType.invalid
  inputs : List RaRenderpassInput := []
  vertex_attribs : Option (List RaRenderpassInput) := none
  vertex_stride : Nat := 0
  frag_shader : Option String := none
  vertex_shader : Option String := none
  compute_shader : Option String := none
  enable_blend : Bool := false
  blend_src_rgb : Nat := 0
  blend_dst_rgb : Nat := 0
  blend_src_alpha : Nat := 0
  blend_dst_alpha : Nat := 0
deriving DecidableEq

/-- Compiled render pass as returned by `renderpass_create` (`struct
ra_renderpass`); `id` is the creation index and models the pointer identity
of the object. -/
structure RaRenderpass where
  id : Nat
  params : RaRenderpassParams
deriving DecidableEq

/-- One shader-cache entry (`struct sc_entry`): the created pass (NULL when
creation failed), the last-seen uniform snapshots, and the full key text
`total`.  The performance timer is irrelevant to the embedded behavior. -/
structure ScEntry where
  pass : Option RaRenderpass := none
  cached_uniforms : List UniformVal := []
  total : String
deriving DecidableEq

/-- Uniform value passed to a run (`struct ra_renderpass_input_val`); `data`
is the snapshot the `data` pointer points to. -/
structure RaRenderpassInputVal where
  index : Nat
  data : UniformVal
deriving DecidableEq

/-- Backend calls made by the shader cache through `sc->ra->fns`, recorded as
events so that "no second compile" and "every pass destroyed" are provable. -/
inductive RaEvent where
  | renderpass_create_ok (id : Nat)
  | renderpass_create_failed
  | renderpass_destroy (id : Nat)
  | renderpass_run (id : Nat)
deriving DecidableEq, Repr

/-- Texture parameters (`struct ra_tex_params`), restricted to the fields the
excerpt reads; `initial_data` is the pointer modelled as an address. -/
structure RaTexParams where
  dimensions : Nat := 2
  w : Nat := 0
  h : Nat := 0
  d : Nat := 0
  format : RaFormat
  render_src : Bool := false
  render_dst : Bool := false
  src_linear : Bool := false
  src_repeat : Bool := false
  non_normalized : Bool := false
  external_oes : Bool := false
  initial_data : Option Nat := none

/-- Texture object (`struct ra_tex` plus its `struct ra_tex_gl` private data).
`handle` models the `ra_tex *` pointer value that uniform unions store;
`texture` / `fbo` / `target` are the GL object names and bind target. -/
structure RaTex where
  params : RaTexParams
  handle : Nat := 0
  texture : Nat := 0
  fbo : Nat := 0
  target : Nat := 0

/-- The shader cache state (`struct gl_shader_cache`).  `current_shader` is
the index of the entry the pointer refers to; `create_count` counts
`renderpass_create` backend calls (it indexes the `Ra.createOk` oracle);
`ra_log` records the backend calls in order.  The `tmp` scratch buffers, the
log object and the disk-cache directory (NULL here) are not part of the
observable state. -/
structure GlShaderCache where
  ra : Ra
  exts : List String := []
  prelude_text : String := ""
  header_text : String := ""
  text : String := ""
  next_texture_unit : Nat := 1
  next_image_unit : Nat := 1
  next_buffer_binding : Nat := 1
  params : RaRenderpassParams := {}
  entries : List ScEntry := []
  current_shader : Option Nat := none
  uniforms : List ScUniform := []
  values : List RaRenderpassInputVal := []
  needs_reset : Bool := false
  error_state : Bool := false
  create_count : Nat := 0
  ra_log : List RaEvent := []

/-- Reset the per-shader assembly state (`gl_sc_reset`). -/
def gl_sc_reset (sc : GlShaderCache) : GlShaderCache :=
  { sc with
    prelude_text := ""
    header_text := ""
    text := ""
    uniforms := []
    next_texture_unit := 1
    next_image_unit := 1
    next_buffer_binding := 1
    current_shader := none
    params := {}
    needs_reset := false }

/-- Create a fresh shader cache (`gl_sc_create`): zeroed state then reset. -/
def gl_sc_create (ra : Ra) : GlShaderCache :=
  gl_sc_reset { ra := ra }

/-- Record an extension, without duplicates (`gl_sc_enable_extension`). -/
def gl_sc_enable_extension (sc : GlShaderCache) (name : String) : GlShaderCache :=
  if sc.exts.any (fun e => e == name) then sc
  else { sc with exts := sc.exts ++ [name] }

/-- Append fragment/compute body text (`gl_sc_add`; `gl_sc_addf` appends the
already-formatted text the same way). -/
def gl_sc_add (sc : GlShaderCache) (t : String) : GlShaderCache :=
  { sc with text := sc.text ++ t }

/-- Append header text (`gl_sc_hadd` / `gl_sc_haddf` / `gl_sc_hadd_bstr`). -/
def gl_sc_hadd (sc : GlShaderCache) (t : String) : GlShaderCache :=
  { sc with header_text := sc.header_text ++ t }

/-- Append prelude text (`gl_sc_paddf`). -/
def gl_sc_paddf (sc : GlShaderCache) (t : String) : GlShaderCache :=
  { sc with prelude_text := sc.prelude_text ++ t }

/-- Look up a pending uniform by name; reinitialize it in place when present
(keeping only the allocated name), append a fresh one otherwise
(`find_uniform`).  Returns the updated list and the index of the uniform the
returned pointer refers to. -/
def find_uniform : List ScUniform → String → List ScUniform × Nat
  | [], name => ([sc_uniform_blank name], 0)
  | u :: us, name =>
    if u.input.name == name then
      (sc_uniform_blank name :: us, 0)
    else
      let (us2, i) := find_uniform us name
      (u :: us2, i + 1)

/-- Common pattern of every `gl_sc_uniform_*` entry point: fetch-or-create the
uniform through `find_uniform`, then assign its fields through the returned
pointer (`g` being the per-setter field assignments). -/
def sc_uniforms_after (us0 : List ScUniform) (name : String)
    (g : ScUniform → ScUniform) : List ScUniform :=
  let (us, i) := find_uniform us0 name
  us.set i (g (us.getD i (sc_uniform_blank name)))

/-- Declare a float uniform (`gl_sc_uniform_f`); `fbits` is the float's bit
pattern. -/
def gl_sc_uniform_f (sc : GlShaderCache) (name : String) (fbits : Nat) : GlShaderCache :=
  { sc with uniforms := sc_uniforms_after sc.uniforms name (fun u =>
      { u with input.type := RaVartype.float, glsl_type := "float",
               v := writeWords u.v [fbits] }) }

/-- Declare an int uniform (`gl_sc_uniform_i`). -/
def gl_sc_uniform_i (sc : GlShaderCache) (name : String) (ival : Nat) : GlShaderCache :=
  { sc with uniforms := sc_uniforms_after sc.uniforms name (fun u =>
      { u with input.type := RaVartype.int, glsl_type := "int",
               v := writeWords u.v [ival] }) }

/-- Declare a vec2 uniform (`gl_sc_uniform_vec2`). -/
def gl_sc_uniform_vec2 (sc : GlShaderCache) (name : String) (f0 f1 : Nat) : GlShaderCache :=
  { sc with uniforms := sc_uniforms_after sc.uniforms name (fun u =>
      { u with input.type := RaVartype.float, input.dim_v := 2,
               glsl_type := "vec2", v := writeWords u.v [f0, f1] }) }

/-- Declare a vec3 uniform (`gl_sc_uniform_vec3`). -/
def gl_sc_uniform_vec3 (sc : GlShaderCache) (name : String) (f0 f1 f2 : Nat) : GlShaderCache :=
  { sc with uniforms := sc_uniforms_after sc.uniforms name (fun u =>
      { u with input.type := RaVartype.float, input.dim_v := 3,
               glsl_type := "vec3", v := writeWords u.v [f0, f1, f2] }) }

/-- Swap of `r[0+2*1]` and `r[1+2*0]` (`transpose2x2`). -/
def transpose2x2 (r : List Nat) : List Nat :=
  match r with
  | a :: b :: c :: rest => a :: c :: b :: rest
  | _ => r

/-- Declare a mat2 uniform (`gl_sc_uniform_mat2`). -/
def gl_sc_uniform_mat2 (sc : GlShaderCache) (name : String) (t : Bool)
    (m : List Nat) : GlShaderCache :=
  let vals := (List.range 4).map (fun n => m.getD n 0)
  { sc with uniforms := sc_uniforms_after sc.uniforms name (fun u =>
      { u with input.type := RaVartype.float, input.dim_v := 2,
               input.dim_m := 2, glsl_type := "mat2",
               v := writeWords u.v (if t then transpose2x2 vals else vals) }) }

/-- Swaps of (1,3), (2,6) and (5,7) (`transpose3x3`). -/
def transpose3x3 (r : List Nat) : List Nat :=
  match r with
  | a0 :: a1 :: a2 :: a3 :: a4 :: a5 :: a6 :: a7 :: a8 :: rest =>
    a0 :: a3 :: a6 :: a1 :: a4 :: a7 :: a2 :: a5 :: a8 :: rest
  | _ => r

/-- Declare a mat3 uniform (`gl_sc_uniform_mat3`). -/
def gl_sc_uniform_mat3 (sc : GlShaderCache) (name : String) (t : Bool)
    (m : List Nat) : GlShaderCache :=
  let vals := (List.range 9).map (fun n => m.getD n 0)
  { sc with uniforms := sc_uniforms_after sc.uniforms name (fun u =>
      { u with input.type := RaVartype.float, input.dim_v := 3,
               input.dim_m := 3, glsl_type := "mat3",
               v := writeWords u.v (if t then transpose3x3 vals else vals) }) }

/-- Declare a texture sampler uniform (`gl_sc_uniform_texture`); the GLSL
sampler type is chosen from the texture parameters exactly as in the source. -/
def gl_sc_uniform_texture (sc : GlShaderCache) (name : String) (tex : RaTex) : GlShaderCache :=
  let glsl_type :=
    if tex.params.dimensions == 1 then "sampler1D"
    else if tex.params.dimensions == 3 then "sampler3D"
    else if tex.params.non_normalized then "sampler2DRect"
    else if tex.params.external_oes then "samplerExternalOES"
    else if tex.params.format.ctype == RaCtype.uint then
      (if sc.ra.glsl_es then "highp usampler2D" else "usampler2D")
    else "sampler2D"
  { sc with uniforms := sc_uniforms_after sc.uniforms name (fun u =>
      { u with input.type := RaVartype.tex, glsl_type := glsl_type,
               input.binding := sc.next_texture_unit,
               v := writeWords u.v [tex.handle] }),
            next_texture_unit := sc.next_texture_unit + 1 }

/-- Declare a write-only image uniform (`gl_sc_uniform_image2D_wo`). -/
def gl_sc_uniform_image2D_wo (sc : GlShaderCache) (name : String) (tex : RaTex) : GlShaderCache :=
  let sc := gl_sc_enable_extension sc "GL_ARB_shader_image_load_store"
  { sc with uniforms := sc_uniforms_after sc.uniforms name (fun u =>
      { u with input.type := RaVartype.img_w, glsl_type := "writeonly image2D",
               input.binding := sc.next_image_unit,
               v := writeWords u.v [tex.handle] }),
            next_image_unit := sc.next_image_unit + 1 }

/-- Declare a shader storage buffer (`gl_sc_ssbo`); `buf_handle` models the
`ra_buf *` pointer, `format` the already-formatted member list. -/
def gl_sc_ssbo (sc : GlShaderCache) (name : String) (buf_handle : Nat)
    (format : String) : GlShaderCache :=
  let sc := gl_sc_enable_extension sc "GL_ARB_shader_storage_buffer_object"
  { sc with uniforms := sc_uniforms_after sc.uniforms name (fun u =>
      { u with input.type := RaVartype.buf_rw, glsl_type := "",
               input.binding := sc.next_buffer_binding,
               v := writeWords u.v [buf_handle], buffer_format := format }),
            next_buffer_binding := sc.next_buffer_binding + 1 }

/-- Record the vertex data layout (`gl_sc_set_vertex_format`); the `{0}`
terminator of the C array corresponds to the end of the list. -/
def gl_sc_set_vertex_format (sc : GlShaderCache) (entries : List RaRenderpassInput)
    (vertex_stride : Nat) : GlShaderCache :=
  { sc with params.vertex_attribs := some entries,
            params.vertex_stride := vertex_stride }

/-- Enable blending for the generated pass (`gl_sc_blend`); the arguments are
`enum ra_blend` values. -/
def gl_sc_blend (sc : GlShaderCache) (src_rgb dst_rgb src_alpha dst_alpha : Nat) :
    GlShaderCache :=
  { sc with params.enable_blend := true,
            params.blend_src_rgb := src_rgb,
            params.blend_dst_rgb := dst_rgb,
            params.blend_src_alpha := src_alpha,
            params.blend_dst_alpha := dst_alpha }

/-! ## Shader text assembly and `gl_sc_generate` -/

/-- GLSL type used for a vertex attribute (`vao_glsl_type`); `none` models the
`abort()` on an unexpected vector dimension. -/
def vao_glsl_type (e : RaRenderpassInput) : Option String :=
  match e.dim_v with
  | 1 => some "float"
  | 2 => some "vec2"
  | 3 => some "vec3"
  | 4 => some "vec4"
  | _ => none

/-- Uniform declaration block appended by `add_uniforms`; `none` models the
`abort()` on a uniform type the shader cache never produces. -/
def add_uniforms : List ScUniform → Option String
  | [] => some ""
  | u :: rest => do
    let line ←
      match u.input.type with
      | RaVartype.int | RaVartype.float | RaVartype.tex | RaVartype.img_w =>
        some ("uniform " ++ u.glsl_type ++ " " ++ u.input.name ++ ";\n")
      | RaVartype.buf_rw =>
        some ("layout(std430, binding=" ++ toString u.input.binding ++ ") buffer "
          ++ u.input.name ++ " \x7b " ++ u.buffer_format ++ " \x7d;\n")
      | _ => none
    let rest2 ← add_uniforms rest
    return line ++ rest2

/-- Common shader header text built at the top of `gl_sc_generate`
(`#version`, compute/extension enables, ES precision, compatibility defines
and the LUT_POS helper). -/
def sc_header_block (ra : Ra) (exts : List String) (ty : RaRenderpassType) : String :=
  let glsl_version := ra.glsl_version
  let glsl_es := if ra.glsl_es then glsl_version else 0
  "#version " ++ toString glsl_version ++ (if glsl_es ≥ 300 then " es" else "") ++ "\n"
  ++ (if ty == RaRenderpassType.compute then
        "#extension GL_ARB_compute_shader : enable\n" else "")
  ++ String.join (exts.map (fun e => "#extension " ++ e ++ " : enable\n"))
  ++ (if glsl_es ≠ 0 then
        "precision mediump float;\n" ++ "precision mediump sampler2D;\n"
        ++ (if ra.caps_tex_3d then "precision mediump sampler3D;\n" else "")
      else "")
  ++ (if glsl_version ≥ 130 then
        "#define texture1D texture\n" ++ "#define texture3D texture\n"
      else "#define texture texture2D\n")
  ++ "#define LUT_POS(x, lut_size) mix(0.5 / (lut_size), 1.0 - 0.5 / (lut_size), (x))\n"

/-- Per-attribute loop of the raster branch of `gl_sc_generate`: returns the
texts appended to `vert_head`, `vert_body` and `frag_vaos`.  `none` models the
asserts (`position` must be a float vec2) and the `vao_glsl_type` abort. -/
def sc_vao_loop (vert_in vert_out frag_in : String) :
    List RaRenderpassInput → Option (String × String × String)
  | [] => some ("", "", "")
  | e :: rest => do
    let glsl_type ← vao_glsl_type e
    let (h, b, f) ←
      if e.name == "position" then
        if e.dim_v == 2 && e.type == RaVartype.float then
          some (vert_in ++ " vec2 vertex_position;\n",
                "gl_Position = vec4(vertex_position, 1.0, 1.0);\n", "")
        else none
      else
        some (vert_in ++ " " ++ glsl_type ++ " vertex_" ++ e.name ++ ";\n"
                ++ vert_out ++ " " ++ glsl_type ++ " " ++ e.name ++ ";\n",
              e.name ++ " = vertex_" ++ e.name ++ ";\n",
              frag_in ++ " " ++ glsl_type ++ " " ++ e.name ++ ";\n")
    let (h2, b2, f2) ← sc_vao_loop vert_in vert_out frag_in rest
    return (h ++ h2, b ++ b2, f ++ f2)

/-- Shader-text/key assembly of `gl_sc_generate` (lines 540-679 of
`shader_cache.c`): returns `(hash_total, frag, vert, comp)`.  The blend
factors enter the key only when blending was enabled. -/
def sc_assemble (ra : Ra) (exts : List String) (ty : RaRenderpassType)
    (attribs : List RaRenderpassInput) (uniforms : List ScUniform)
    (prelude_text header_text text : String)
    (enable_blend : Bool) (bsr bdr bsa bda : Nat) :
    Option (String × Option String × Option String × Option String) := do
  let glsl_version := ra.glsl_version
  let header := sc_header_block ra exts ty
  let (vert, frag, comp) ←
    match ty with
    | RaRenderpassType.raster => do
      let vert_in := if glsl_version ≥ 130 then "in" else "attribute"
      let vert_out := if glsl_version ≥ 130 then "out" else "varying"
      let frag_in := if glsl_version ≥ 130 then "in" else "varying"
      let (vh, vb, fv) ← sc_vao_loop vert_in vert_out frag_in attribs
      let vert := header ++ vh ++ ("void main() \x7b\n" ++ vb ++ "\x7d\n")
      let uni ← add_uniforms uniforms
      let frag := header
        ++ (if glsl_version ≥ 130 then "out vec4 out_color;\n" else "")
        ++ fv ++ uni ++ prelude_text ++ header_text
        ++ "void main() \x7b\n"
        ++ "vec4 color = vec4(0.0, 0.0, 0.0, 1.0);\n"
        ++ text
        ++ (if glsl_version ≥ 130 then "out_color = color;\n" else "gl_FragColor = color;\n")
        ++ "\x7d\n"
      some (some vert, some frag, (none : Option String))
    | RaRenderpassType.compute => do
      let uni ← add_uniforms uniforms
      let comp := header ++ uni ++ prelude_text ++ header_text
        ++ "void main() \x7b\n"
        ++ "vec4 color = vec4(0.0, 0.0, 0.0, 1.0);\n"
        ++ text ++ "\x7d\n"
      some ((none : Option String), (none : Option String), some comp)
    | RaRenderpassType.invalid =>
      some ((none : Option String), (none : Option String), (none : Option String))
  let hash_total := "type " ++ toString (renderpass_type_code ty) ++ "\n"
    ++ (frag.getD "") ++ "\n"
    ++ (vert.getD "") ++ "\n"
    ++ (comp.getD "") ++ "\n"
    ++ (if enable_blend then
          "blend " ++ toString bsr ++ " " ++ toString bdr ++ " "
            ++ toString bsa ++ " " ++ toString bda ++ "\n"
        else "")
  return (hash_total, frag, vert, comp)

/-- Assembly applied to a cache state: `none` also covers the
`assert(sc->params.vertex_attribs)` NULL check. -/
def sc_assemble_of (sc : GlShaderCache) (ty : RaRenderpassType) :
    Option (String × Option String × Option String × Option String) :=
  match sc.params.vertex_attribs with
  | none => none
  | some attribs =>
    sc_assemble sc.ra sc.exts ty attribs sc.uniforms
      sc.prelude_text sc.header_text sc.text
      sc.params.enable_blend sc.params.blend_src_rgb sc.params.blend_dst_rgb
      sc.params.blend_src_alpha sc.params.blend_dst_alpha

/-- The combined cache key (`hash_total`) a generate on `sc` would look up. -/
def sc_key (sc : GlShaderCache) (ty : RaRenderpassType) : Option String :=
  (sc_assemble_of sc ty).map (fun r => r.1)

/-- Hard capacity of the entry pool (`SC_MAX_ENTRIES`). -/
def SC_MAX_ENTRIES : Nat := 48

/-- Destroy every entry's pass and free the pool (`sc_flush_cache`). -/
def sc_flush_cache (sc : GlShaderCache) : GlShaderCache :=
  { sc with
    ra_log := sc.ra_log ++ sc.entries.filterMap
      (fun e => e.pass.map (fun p => RaEvent.renderpass_destroy p.id))
    entries := [] }

/-- Destroy the whole cache (`gl_sc_destroy`): reset, then flush. -/
def gl_sc_destroy (sc : GlShaderCache) : GlShaderCache :=
  sc_flush_cache (gl_sc_reset sc)

/-- Index of the first entry whose `total` equals the key, byte for byte
(the lookup loop of `gl_sc_generate`, using `bstr_equals`). -/
def sc_find_entry : List ScEntry → String → Option Nat
  | [], _ => none
  | e :: rest, key =>
    if e.total == key then some 0
    else (sc_find_entry rest key).map (fun i => i + 1)

/-- Create the render pass for a new entry (`create_pass`, with no disk-cache
directory configured, which is the `gl_sc_create` default): the vertex
attributes are duplicated under mangled `vertex_*` names, then
`renderpass_create` is invoked — succeeding or failing per the backend
oracle.  Returns the updated cache state and entry. -/
def sc_create_pass (sc : GlShaderCache) (entry : ScEntry) : GlShaderCache × ScEntry :=
  let params := { sc.params with
    vertex_attribs := sc.params.vertex_attribs.map
      (List.map (fun a => { a with name := "vertex_" ++ a.name })) }
  if sc.ra.createOk sc.create_count then
    let pass : RaRenderpass := { id := sc.create_count, params := params }
    ({ sc with create_count := sc.create_count + 1,
               ra_log := sc.ra_log ++ [RaEvent.renderpass_create_ok pass.id] },
     { entry with pass := some pass })
  else
    ({ sc with create_count := sc.create_count + 1,
               error_state := true,
               ra_log := sc.ra_log ++ [RaEvent.renderpass_create_failed] },
     entry)

/-- The `changed` decision of `update_uniform`: byte-compare the new value
against the snapshot over the input's data size; size-0 (object) types always
count as changed. -/
def sc_uniform_changed (input : RaRenderpassInput) (c newv : UniformVal) : Bool :=
  let size := ra_render_pass_input_data_size input
  if size > 0 then uniform_val_ne c newv size else true

/-- The update loop of `gl_sc_generate` (lines 713-715) over `update_uniform`:
for each uniform, byte-compare the new value with the entry's snapshot over
the input's data size (always "changed" for size-0 types), and collect changed
values while updating the snapshots.  `n` is the running input index. -/
def sc_update_uniforms :
    List ScUniform → List RaRenderpassInput → List UniformVal → Nat →
    List RaRenderpassInputVal × List UniformVal
  | u :: us, input :: ins, c :: cs, n =>
    let changed := sc_uniform_changed input c u.v
    let (vals, cs2) := sc_update_uniforms us ins cs (n + 1)
    if changed then ({ index := n, data := u.v } :: vals, u.v :: cs2)
    else (vals, c :: cs2)
  | _, _, _, _ => ([], [])

/-- Tail of `gl_sc_generate` once an entry is selected (lines 707-717): give
up silently if the entry has no pass; otherwise check the count asserts, run
the uniform update loop and make the entry current. -/
def sc_after_entry (sc : GlShaderCache) (i : Nat) : Option GlShaderCache :=
  match sc.entries[i]? with
  | none => none
  | some e =>
    match e.pass with
    | none => some sc
    | some pass =>
      if sc.uniforms.length == e.cached_uniforms.length
          && sc.uniforms.length == pass.params.inputs.length then
        let (vals, cs) := sc_update_uniforms sc.uniforms pass.params.inputs
          e.cached_uniforms 0
        some { sc with
          values := vals
          entries := sc.entries.set i { e with cached_uniforms := cs }
          current_shader := some i }
      else none

/-- Allocation part of the cache-miss branch of `gl_sc_generate` (lines
694-706), after the capacity check: allocate the entry with zeroed uniform
snapshots, append the pending uniform inputs to the pass params, create the
pass, and append the entry. -/
def sc_insert_core (scF : GlShaderCache) (key : String) : Option GlShaderCache :=
  let entry : ScEntry :=
    { total := key, cached_uniforms := scF.uniforms.map (fun _ => zeroVal) }
  let sc1 := { scF with params.inputs := scF.params.inputs ++ scF.uniforms.map (fun u => u.input) }
  let r := sc_create_pass sc1 entry
  let sc2 := { r.1 with entries := r.1.entries ++ [r.2] }
  sc_after_entry sc2 (sc2.entries.length - 1)

/-- Cache-miss branch of `gl_sc_generate` (lines 689-706): flush the pool when
it is exactly at capacity, then allocate and append the new entry. -/
def sc_insert_entry (sc : GlShaderCache) (key : String) : Option GlShaderCache :=
  sc_insert_core (if sc.entries.length == SC_MAX_ENTRIES then sc_flush_cache sc else sc) key

/-- Intermediate state of `gl_sc_generate` after the asserts: pass type set,
reset now pending, generated shader texts stored into the params (each only
when produced, mirroring the `if (frag)`-style guards). -/
def sc_mid (sc : GlShaderCache) (ty : RaRenderpassType)
    (frag vert comp : Option String) : GlShaderCache :=
  { sc with
    needs_reset := true
    params := { sc.params with
      type := ty
      frag_shader := match frag with | some f => some f | none => sc.params.frag_shader
      vertex_shader := match vert with | some v => some v | none => sc.params.vertex_shader
      compute_shader := match comp with | some c => some c | none => sc.params.compute_shader } }

/-- Generate vertex/fragment or compute shaders from the accumulated state,
look the combined key up in the entry pool, creating and inserting a new
entry on a miss, and collect the changed uniform values (`gl_sc_generate`).
`none` models the C asserts aborting (`!sc->needs_reset`, vertex format set,
attribute and uniform sanity). -/
def gl_sc_generate (sc : GlShaderCache) (ty : RaRenderpassType) : Option GlShaderCache :=
  if sc.needs_reset then none
  else
    match sc_assemble_of { sc with params.type := ty } ty with
    | none => none
    | some (key, frag, vert, comp) =>
      let sc1 := sc_mid { sc with params.type := ty } ty frag vert comp
      match sc_find_entry sc1.entries key with
      | some i => sc_after_entry sc1 i
      | none => sc_insert_entry sc1 key

/-- Pass the current shader points to, when any. -/
def sc_current_pass (sc : GlShaderCache) : Option RaRenderpass :=
  sc.current_shader.bind (fun i => (sc.entries[i]?).bind (fun e => e.pass))

/-- Generate a raster pass and run it on the whole target, then reset
(`gl_sc_dispatch_draw`).  The timer measurement is not modelled; the result
state is what the caller observes. -/
def gl_sc_dispatch_draw (sc : GlShaderCache) (target : RaTex)
    (vertex_count : Nat) : Option GlShaderCache := do
  let sc ← gl_sc_generate sc RaRenderpassType.raster
  let sc :=
    match sc_current_pass sc with
    | none => sc
    | some pass => { sc with ra_log := sc.ra_log ++ [RaEvent.renderpass_run pass.id] }
  return gl_sc_reset sc

/-- Generate a compute pass and dispatch `w × h × d` work groups, then reset
(`gl_sc_dispatch_compute`). -/
def gl_sc_dispatch_compute (sc : GlShaderCache) (w h d : Nat) : Option GlShaderCache := do
  let sc ← gl_sc_generate sc RaRenderpassType.compute
  let sc :=
    match sc_current_pass sc with
    | none => sc
    | some pass => { sc with ra_log := sc.ra_log ++ [RaEvent.renderpass_run pass.id] }
  return gl_sc_reset sc

/-! ## OpenGL backend model (`ra_gl.c`): GL calls as an event trace -/

/-- GL enum values used by the embedded calls (from the GL headers). -/
def GL_TEXTURE_1D : Nat := 0x0DE0
def GL_TEXTURE_2D : Nat := 0x0DE1
def GL_TEXTURE_3D : Nat := 0x806F
def GL_TEXTURE_RECTANGLE : Nat := 0x84F5
def GL_TEXTURE_MIN_FILTER : Nat := 0x2801
def GL_TEXTURE_MAG_FILTER : Nat := 0x2800
def GL_TEXTURE_WRAP_S : Nat := 0x2802
def GL_TEXTURE_WRAP_T : Nat := 0x2803
def GL_TEXTURE_WRAP_R : Nat := 0x8072
def GL_LINEAR : Nat := 0x2601
def GL_NEAREST : Nat := 0x2600
def GL_REPEAT : Nat := 0x2901
def GL_CLAMP_TO_EDGE : Nat := 0x812F
def GL_UNPACK_ALIGNMENT : Nat := 0x0CF5
def GL_FRAMEBUFFER : Nat := 0x8D40
def GL_COLOR_ATTACHMENT0 : Nat := 0x8CE0
def GL_FRAMEBUFFER_COMPLETE : Nat := 0x8CD5
def GL_PIXEL_UNPACK_BUFFER : Nat := 0x88EC
def GL_SYNC_GPU_COMMANDS_COMPLETE : Nat := 0x9117
def GL_ALREADY_SIGNALED : Nat := 0x911A
def GL_TIMEOUT_EXPIRED : Nat := 0x911B
def GL_TEXTURE0 : Nat := 0x84C0
def GL_SCISSOR_TEST : Nat := 0x0C11
def GL_BLEND : Nat := 0x0BE2
def GL_SHADER_STORAGE_BUFFER : Nat := 0x90D2
def GL_WRITE_ONLY : Nat := 0x88B9
def GL_ZERO : Nat := 0
def GL_ONE : Nat := 1
def GL_SRC_ALPHA : Nat := 0x0302
def GL_ONE_MINUS_SRC_ALPHA : Nat := 0x0303
def GL_TEXTURE_FETCH_BARRIER_BIT : Nat := 0x00000008
def GL_ALL_BARRIER_BITS : Nat := 0xFFFFFFFF

/-- One OpenGL call issued by `ra_gl.c`, in program order. -/
inductive GlEvent where
  | genTextures (id : Nat)
  | bindTexture (target id : Nat)
  | texParameteri (target pname val : Nat)
  | pixelStorei (pname val : Nat)
  | texImage1D (target iformat w format type : Nat) (data : Option Nat)
  | texImage2D (target iformat w h format type : Nat) (data : Option Nat)
  | texImage3D (target iformat w h d format type : Nat) (data : Option Nat)
  | genFramebuffers (id : Nat)
  | bindFramebuffer (target id : Nat)
  | framebufferTexture2D (target attachment textarget tex level : Nat)
  | checkFramebufferStatus (target : Nat)
  | deleteTextures (id : Nat)
  | deleteFramebuffers (id : Nat)
  | bindBuffer (target id : Nat)
  | pboUploadTex (use_pbo : Bool) (target format type w h : Nat)
      (src : Nat) (stride : Int) (x0 y0 rw rh : Int)
  | deleteSync (fence : Nat)
  | fenceSync (fence : Nat) (condition flags : Nat)
  | clientWaitSync (fence flags : Nat) (timeout : Nat)
  | useProgram (id : Nat)
  | activeTexture (unit : Nat)
  | uniform1i (loc : Int) (v : Nat)
  | uniform1f (loc : Int) (v : Nat)
  | uniform2f (loc : Int) (v0 v1 : Nat)
  | uniform3f (loc : Int) (v0 v1 v2 : Nat)
  | uniform4f (loc : Int) (v0 v1 v2 v3 : Nat)
  | uniformMatrix2fv (loc : Int) (vals : List Nat)
  | uniformMatrix3fv (loc : Int) (vals : List Nat)
  | bindImageTexture (unit texture : Nat) (format : Nat)
  | bindBufferBase (target index buffer : Nat)
  | viewport (x y : Int) (w h : Int)
  | scissor (x y : Int) (w h : Int)
  | enable (cap : Nat)
  | disable (cap : Nat)
  | blendFuncSeparate (srgb drgb salpha dalpha : Nat)
  | drawTriangles (vertex_count : Nat)
  | dispatchCompute (x y z : Nat)
  | memoryBarrier (bits : Nat)
deriving DecidableEq, Repr

/-- Rectangle (`struct mp_rect`). -/
structure MpRect where
  x0 : Int
  y0 : Int
  x1 : Int
  y1 : Int
deriving DecidableEq, Repr

/-- GL calls of `gl_tex_destroy` for an owned texture (the wrapped case keeps
the native objects); the PBO helper teardown is outside the excerpt. -/
def gl_tex_destroy_events (own_objects : Bool) (fbo texture : Nat) : List GlEvent :=
  if own_objects then
    (if fbo ≠ 0 then [GlEvent.deleteFramebuffers fbo] else [])
      ++ [GlEvent.deleteTextures texture]
  else []

/-- Create a texture (`gl_tex_create`).  `texture_id` / `fbo_id` are the fresh
names `GenTextures` / `GenFramebuffers` return; `caps_fb` is the
`MPGL_CAP_FB` capability; `fb_status` is what `CheckFramebufferStatus`
reports after attaching.  The result pairs the created texture (`none`
models returning NULL) with the GL trace; the outer `none` models the C
`abort()`/assert on bad dimensions. -/
def gl_tex_create (caps_fb : Bool) (fb_status : Nat) (texture_id fbo_id : Nat)
    (params : RaTexParams) : Option (Option RaTex × List GlEvent) := do
  let fmt := params.format
  let target0 ←
    match params.dimensions with
    | 1 => some GL_TEXTURE_1D
    | 2 => some GL_TEXTURE_2D
    | 3 => some GL_TEXTURE_3D
    | _ => none
  let target ←
    if params.non_normalized then
      if params.dimensions == 2 then some GL_TEXTURE_RECTANGLE else none
    else some target0
  let filter := if params.src_linear then GL_LINEAR else GL_NEAREST
  let wrap := if params.src_repeat then GL_REPEAT else GL_CLAMP_TO_EDGE
  let ev1 : List GlEvent :=
    [GlEvent.genTextures texture_id, GlEvent.bindTexture target texture_id,
     GlEvent.texParameteri target GL_TEXTURE_MIN_FILTER filter,
     GlEvent.texParameteri target GL_TEXTURE_MAG_FILTER filter,
     GlEvent.texParameteri target GL_TEXTURE_WRAP_S wrap]
    ++ (if params.dimensions > 1 then [GlEvent.texParameteri target GL_TEXTURE_WRAP_T wrap] else [])
    ++ (if params.dimensions > 2 then [GlEvent.texParameteri target GL_TEXTURE_WRAP_R wrap] else [])
    ++ [GlEvent.pixelStorei GL_UNPACK_ALIGNMENT 1]
    ++ (match params.dimensions with
        | 1 => [GlEvent.texImage1D target fmt.gl_internal_format params.w
                  fmt.gl_format fmt.gl_type params.initial_data]
        | 2 => [GlEvent.texImage2D target fmt.gl_internal_format params.w params.h
                  fmt.gl_format fmt.gl_type params.initial_data]
        | 3 => [GlEvent.texImage3D target fmt.gl_internal_format params.w params.h
                  params.d fmt.gl_format fmt.gl_type params.initial_data]
        | _ => [])
    ++ [GlEvent.pixelStorei GL_UNPACK_ALIGNMENT 4, GlEvent.bindTexture target 0]
  let tex : RaTex :=
    { params := { params with initial_data := none }
      handle := texture_id, texture := texture_id, fbo := 0, target := target }
  if params.render_dst then
    if !fmt.renderable then
      -- "Trying to create renderable texture with unsupported format."
      return (none, ev1 ++ gl_tex_destroy_events true 0 texture_id)
    else if !caps_fb then
      none
    else
      let ev2 := ev1 ++
        [GlEvent.genFramebuffers fbo_id,
         GlEvent.bindFramebuffer GL_FRAMEBUFFER fbo_id,
         GlEvent.framebufferTexture2D GL_FRAMEBUFFER GL_COLOR_ATTACHMENT0
           GL_TEXTURE_2D texture_id 0,
         GlEvent.checkFramebufferStatus GL_FRAMEBUFFER,
         GlEvent.bindFramebuffer GL_FRAMEBUFFER 0]
      if fb_status ≠ GL_FRAMEBUFFER_COMPLETE then
        -- framebuffer completeness check failed
        return (none, ev2 ++ gl_tex_destroy_events true fbo_id texture_id)
      else
        return (some { tex with fbo := fbo_id }, ev2)
  else
    return (some tex, ev1)

/-- Persistently mapped buffer (`struct ra_mapped_buffer` plus its
`struct ra_mapped_buffer_gl` private data); `fence = none` models the NULL
sync object. -/
structure RaMappedBuffer where
  data : Nat
  size : Nat
  pbo : Nat
  fence : Option Nat := none
deriving DecidableEq, Repr

/-- Upload pixel data into a texture (`gl_tex_upload`).  `new_fence` is the
fresh sync-object name `FenceSync` returns when sourcing from a mapped
buffer.  Returns the updated mapped buffer (if one was given) and the GL
trace; `none` models the asserts (`rc` only for 2D).  `DeleteSync` on a NULL
fence is a GL no-op, so it is only recorded when a fence existed. -/
def gl_tex_upload (use_pbo : Bool) (tex : RaTex) (src : Nat) (stride : Int)
    (rc : Option MpRect) (buf : Option RaMappedBuffer) (new_fence : Nat) :
    Option (Option RaMappedBuffer × List GlEvent) := do
  let full : MpRect := { x0 := 0, y0 := 0, x1 := tex.params.w, y1 := tex.params.h }
  let (evPre, src) :=
    match buf with
    | some b => ([GlEvent.bindBuffer GL_PIXEL_UNPACK_BUFFER b.pbo], src - b.data)
    | none => ([], src)
  let evMid ←
    match tex.params.dimensions with
    | 1 =>
      match rc with
      | some _ => none
      | none => some [GlEvent.texImage1D tex.target tex.params.format.gl_internal_format
          tex.params.w tex.params.format.gl_format tex.params.format.gl_type (some src)]
    | 2 =>
      let r := rc.getD full
      some [GlEvent.pboUploadTex (use_pbo && buf.isNone) tex.target
        tex.params.format.gl_format tex.params.format.gl_type
        tex.params.w tex.params.h src stride r.x0 r.y0 (r.x1 - r.x0) (r.y1 - r.y0)]
    | 3 =>
      match rc with
      | some _ => none
      | none => some [GlEvent.pixelStorei GL_UNPACK_ALIGNMENT 1,
          GlEvent.texImage3D GL_TEXTURE_3D tex.params.format.gl_internal_format
            tex.params.w tex.params.h tex.params.d tex.params.format.gl_format
            tex.params.format.gl_type (some src),
          GlEvent.pixelStorei GL_UNPACK_ALIGNMENT 4]
    | _ => some []
  let evs := [GlEvent.bindTexture tex.target tex.texture] ++ evMid
    ++ [GlEvent.bindTexture tex.target 0]
  match buf with
  | some b =>
    let evPost := [GlEvent.bindBuffer GL_PIXEL_UNPACK_BUFFER 0]
      ++ (match b.fence with
          | some f => [GlEvent.deleteSync f]
          | none => [])
      ++ [GlEvent.fenceSync new_fence GL_SYNC_GPU_COMMANDS_COMPLETE 0]
    return (some { b with fence := some new_fence }, evPre ++ evs ++ evPost)
  | none => return (none, evPre ++ evs)

/-- Non-blocking poll of a mapped buffer's fence (`gl_poll_mapped_buffer`).
`signaled` tells whether the GPU has signaled a given sync object (the
`ClientWaitSync` result with timeout 0).  Returns (buffer reusable, updated
buffer, GL trace). -/
def gl_poll_mapped_buffer (signaled : Nat → Bool) (buf : RaMappedBuffer) :
    Bool × RaMappedBuffer × List GlEvent :=
  match buf.fence with
  | some f =>
    let res := if signaled f then GL_ALREADY_SIGNALED else GL_TIMEOUT_EXPIRED
    if res == GL_ALREADY_SIGNALED then
      (true, { buf with fence := none },
       [GlEvent.clientWaitSync f 0 0, GlEvent.deleteSync f])
    else
      (false, buf, [GlEvent.clientWaitSync f 0 0])
  | none => (true, buf, [])

/-- Map an `enum ra_blend` value (numeric codes of the header declaration
order: ZERO, ONE, SRC_ALPHA, ONE_MINUS_SRC_ALPHA) to the GL blend factor
(`map_blend`; unknown values map to 0). -/
def map_blend (blend : Nat) : Nat :=
  match blend with
  | 0 => GL_ZERO
  | 1 => GL_ONE
  | 2 => GL_SRC_ALPHA
  | 3 => GL_ONE_MINUS_SRC_ALPHA
  | _ => 0

/-- Backend-private data of a compiled pass (`struct ra_renderpass_gl`):
program name, the uniform locations queried at creation, and the first-run
flag. -/
structure RaRenderpassGl where
  program : Nat
  uniform_loc : List Int := []
  first_run : Bool := true

/-- Arguments of one pass execution (`struct ra_renderpass_run_params`);
`target` is only used by raster passes. -/
structure RaRenderpassRunParams where
  pass : RaRenderpass
  values : List RaRenderpassInputVal := []
  target : Option RaTex := none
  vertex_count : Nat := 0
  viewport : MpRect := { x0 := 0, y0 := 0, x1 := 0, y1 := 0 }
  scissors : MpRect := { x0 := 0, y0 := 0, x1 := 0, y1 := 0 }
  compute_groups : Nat × Nat × Nat := (0, 0, 0)

/-- GL calls of `update_uniform` (in `ra_gl.c`) for one input value.  `texOf`
dereferences a `ra_tex *` / `ra_buf *` handle stored in the value union;
`none` models the asserts and the `abort()` default. -/
def gl_update_uniform (texOf : Nat → RaTex) (pass_gl : RaRenderpassGl)
    (pass : RaRenderpass) (val : RaRenderpassInputVal) : Option (List GlEvent) := do
  let input ← pass.params.inputs[val.index]?
  if val.index ≥ pass_gl.uniform_loc.length then none
  else
    let loc := pass_gl.uniform_loc.getD val.index 0
    match input.type with
    | RaVartype.int =>
      if input.dim_v * input.dim_m ≠ 1 then none
      else if loc < 0 then some []
      else some [GlEvent.uniform1i loc (val.data.getD 0 0)]
    | RaVartype.float =>
      if loc < 0 then some []
      else if input.dim_m == 1 then
        match input.dim_v with
        | 1 => some [GlEvent.uniform1f loc (val.data.getD 0 0)]
        | 2 => some [GlEvent.uniform2f loc (val.data.getD 0 0) (val.data.getD 1 0)]
        | 3 => some [GlEvent.uniform3f loc (val.data.getD 0 0) (val.data.getD 1 0)
                       (val.data.getD 2 0)]
        | 4 => some [GlEvent.uniform4f loc (val.data.getD 0 0) (val.data.getD 1 0)
                       (val.data.getD 2 0) (val.data.getD 3 0)]
        | _ => none
      else if input.dim_v == 2 && input.dim_m == 2 then
        some [GlEvent.uniformMatrix2fv loc (val.data.take 4)]
      else if input.dim_v == 3 && input.dim_m == 3 then
        some [GlEvent.uniformMatrix3fv loc (val.data.take 9)]
      else none
    | RaVartype.img_w | RaVartype.tex =>
      let tex := texOf (val.data.getD 0 0)
      if !tex.params.render_src then none
      else
        let evFirst := if pass_gl.first_run then [GlEvent.uniform1i loc input.binding] else []
        if input.type == RaVartype.tex then
          some (evFirst ++ [GlEvent.activeTexture (GL_TEXTURE0 + input.binding),
            GlEvent.bindTexture tex.target tex.texture])
        else
          some (evFirst ++ [GlEvent.bindImageTexture input.binding tex.texture
            tex.params.format.gl_internal_format])
    | RaVartype.buf_rw =>
      some [GlEvent.bindBufferBase GL_SHADER_STORAGE_BUFFER input.binding
        (val.data.getD 0 0)]
    | _ => none

/-- GL calls of `disable_binding` for one input value (the C switch has no
default, so other types unbind nothing). -/
def gl_disable_binding (texOf : Nat → RaTex) (pass : RaRenderpass)
    (val : RaRenderpassInputVal) : Option (List GlEvent) := do
  let input ← pass.params.inputs[val.index]?
  match input.type with
  | RaVartype.img_w | RaVartype.tex =>
    let tex := texOf (val.data.getD 0 0)
    if !tex.params.render_src then none
    else if input.type == RaVartype.tex then
      some [GlEvent.activeTexture (GL_TEXTURE0 + input.binding),
        GlEvent.bindTexture tex.target 0]
    else
      some [GlEvent.bindImageTexture input.binding 0
        tex.params.format.gl_internal_format]
  | RaVartype.buf_rw =>
    some [GlEvent.bindBufferBase GL_SHADER_STORAGE_BUFFER input.binding 0]
  | _ => some []

/-- GL calls of a per-value `for` loop of `gl_renderpass_run`, concatenated in
order; `none` as soon as one iteration aborts. -/
def gl_events_of_values (f : RaRenderpassInputVal → Option (List GlEvent)) :
    List RaRenderpassInputVal → Option (List GlEvent)
  | [] => some []
  | v :: rest => do
    let e ← f v
    let r ← gl_events_of_values f rest
    return e ++ r

/-- Execute a render pass (`gl_renderpass_run`): make the program current,
feed the changed uniform values, then either a triangle-list draw with
framebuffer/viewport/scissor/blend setup, or a 3-dimensional compute dispatch
followed by a memory barrier; finally unbind everything.  Returns the GL
trace and the updated private state; `none` models the asserts/aborts. -/
def gl_renderpass_run (texOf : Nat → RaTex) (pass_gl : RaRenderpassGl)
    (params : RaRenderpassRunParams) : Option (List GlEvent × RaRenderpassGl) := do
  let pass := params.pass
  let evValues ← gl_events_of_values (gl_update_uniform texOf pass_gl pass)
    params.values
  let evHead := [GlEvent.useProgram pass_gl.program] ++ evValues
    ++ [GlEvent.activeTexture GL_TEXTURE0]
  let evMain ←
    match pass.params.type with
    | RaRenderpassType.raster => do
      let target ← params.target
      if !target.params.render_dst then none
      else
        some ([GlEvent.bindFramebuffer GL_FRAMEBUFFER target.fbo,
          GlEvent.viewport params.viewport.x0 params.viewport.y0
            (params.viewport.x1 - params.viewport.x0)
            (params.viewport.y1 - params.viewport.y0),
          GlEvent.scissor params.scissors.x0 params.scissors.y0
            (params.scissors.x1 - params.scissors.x0)
            (params.scissors.y1 - params.scissors.y0),
          GlEvent.enable GL_SCISSOR_TEST]
        ++ (if pass.params.enable_blend then
              [GlEvent.blendFuncSeparate (map_blend pass.params.blend_src_rgb)
                 (map_blend pass.params.blend_dst_rgb)
                 (map_blend pass.params.blend_src_alpha)
                 (map_blend pass.params.blend_dst_alpha),
               GlEvent.enable GL_BLEND]
            else [])
        ++ [GlEvent.drawTriangles params.vertex_count,
            GlEvent.disable GL_SCISSOR_TEST,
            GlEvent.disable GL_BLEND,
            GlEvent.bindFramebuffer GL_FRAMEBUFFER 0])
    | RaRenderpassType.compute =>
      some [GlEvent.dispatchCompute params.compute_groups.1
              params.compute_groups.2.1 params.compute_groups.2.2,
            GlEvent.memoryBarrier GL_TEXTURE_FETCH_BARRIER_BIT]
    | RaRenderpassType.invalid => none
  let evTail ← gl_events_of_values (gl_disable_binding texOf pass) params.values
  return (evHead ++ evMain ++ evTail
      ++ [GlEvent.activeTexture GL_TEXTURE0, GlEvent.useProgram 0],
    { pass_gl with first_run := false })

/-! ## Concrete instances used to exercise the theorems -/

/-- A plain 4-component 8-bit UNORM format ("rgba8" of the GL format table). -/
def fmt_rgba8 : RaFormat :=
  { name := "rgba8", ctype := RaCtype.unorm, num_components := 4, pixel_size := 4,
    component_size := fun _ => 8, component_depth := fun _ => 8,
    linear_filter := true, renderable := true }

/-- A 1-component 16-bit UINT format ("r16ui"-like entry). -/
def fmt_r16ui : RaFormat :=
  { name := "r16ui", ctype := RaCtype.uint, num_components := 1, pixel_size := 2,
    component_size := fun _ => 16, component_depth := fun _ => 16 }

/-- A 1-component 16-bit UNORM format with reduced effective depth
(`depth16 = 10` on hardware that only keeps 10 bits). -/
def fmt_r16_d10 : RaFormat :=
  { name := "r16", ctype := RaCtype.unorm, num_components := 1, pixel_size := 2,
    component_size := fun _ => 16, component_depth := fun _ => 10,
    linear_filter := true }

/-- A non-renderable 1-component format. -/
def fmt_r8_norender : RaFormat :=
  { name := "r8", ctype := RaCtype.unorm, num_components := 1, pixel_size := 1,
    component_size := fun _ => 8, component_depth := fun _ => 8,
    linear_filter := true, renderable := false }

/-- Backend context for the concrete runs: desktop GLSL 130, every
`renderpass_create` succeeds. -/
def ra0 : Ra :=
  { formats := [fmt_rgba8, fmt_r16ui], glsl_version := 130, glsl_es := false }

/-- Fresh shader cache on `ra0` with a trivial vertex format and a one-line
fragment body. -/
def sc0 : GlShaderCache :=
  gl_sc_add (gl_sc_set_vertex_format (gl_sc_create ra0) [] 0) "color = vec4(1.0);\n"

/-- Entry number `n` of the pre-filled pool below. -/
def sc_full_entry (n : Nat) : ScEntry :=
  { total := "old " ++ toString n, pass := some { id := n, params := {} } }

/-- Cache state for the eviction run: `sc0` with a pool of 48 entries whose
keys differ from every generated key. -/
def sc_full : GlShaderCache :=
  { sc0 with entries := (List.range SC_MAX_ENTRIES).map sc_full_entry }

/-- Shader cache with one declared float uniform "exposure" (bit pattern 2). -/
def sc_exposure : GlShaderCache := gl_sc_uniform_f sc0 "exposure" 2

/-- Cache key `sc_exposure` generates for a raster pass. -/
def key_exposure : String := (sc_key sc_exposure RaRenderpassType.raster).getD ""

/-- Pass input list belonging to `sc_exposure` (one float "exposure"). -/
def inputs_exposure : List RaRenderpassInput :=
  sc_exposure.uniforms.map (fun u => u.input)

/-- Compiled pass of the pre-existing exposure entry. -/
def pass_exposure : RaRenderpass :=
  { id := 0, params := { inputs := inputs_exposure } }

/-- Pre-existing cache entry for the exposure shader whose snapshot holds bit
pattern 1 for "exposure" (the previously seen value). -/
def entry_exposure : ScEntry :=
  { total := key_exposure,
    cached_uniforms := [writeWords zeroVal [1]],
    pass := some pass_exposure }

/-- Cache state about to generate against the pre-existing exposure entry. -/
def sc_exposure_hit : GlShaderCache :=
  { sc_exposure with entries := [entry_exposure] }

/-- Uniform-declaration call as the claim over call sequences quantifies it. -/
inductive ScUniformCall where
  | f (name : String) (fbits : Nat)
  | i (name : String) (ival : Nat)
  | vec2 (name : String) (f0 f1 : Nat)
  | vec3 (name : String) (f0 f1 f2 : Nat)
  | mat2 (name : String) (t : Bool) (m : List Nat)
  | mat3 (name : String) (t : Bool) (m : List Nat)
  | texture (name : String) (tex : RaTex)
  | image2D_wo (name : String) (tex : RaTex)
  | ssbo (name : String) (buf_handle : Nat) (format : String)

/-- Name being declared by a call. -/
def ScUniformCall.uname : ScUniformCall → String
  | ScUniformCall.f name _ => name
  | ScUniformCall.i name _ => name
  | ScUniformCall.vec2 name _ _ => name
  | ScUniformCall.vec3 name _ _ _ => name
  | ScUniformCall.mat2 name _ _ => name
  | ScUniformCall.mat3 name _ _ => name
  | ScUniformCall.texture name _ => name
  | ScUniformCall.image2D_wo name _ => name
  | ScUniformCall.ssbo name _ _ => name

/-- Apply one uniform-declaration call to the cache. -/
def applyUniformCall (sc : GlShaderCache) : ScUniformCall → GlShaderCache
  | ScUniformCall.f name fbits => gl_sc_uniform_f sc name fbits
  | ScUniformCall.i name ival => gl_sc_uniform_i sc name ival
  | ScUniformCall.vec2 name f0 f1 => gl_sc_uniform_vec2 sc name f0 f1
  | ScUniformCall.vec3 name f0 f1 f2 => gl_sc_uniform_vec3 sc name f0 f1 f2
  | ScUniformCall.mat2 name t m => gl_sc_uniform_mat2 sc name t m
  | ScUniformCall.mat3 name t m => gl_sc_uniform_mat3 sc name t m
  | ScUniformCall.texture name tex => gl_sc_uniform_texture sc name tex
  | ScUniformCall.image2D_wo name tex => gl_sc_uniform_image2D_wo sc name tex
  | ScUniformCall.ssbo name buf format => gl_sc_ssbo sc name buf format

/-- Apply a sequence of uniform-declaration calls left to right. -/
def applyUniformCalls (sc : GlShaderCache) (calls : List ScUniformCall) : GlShaderCache :=
  calls.foldl applyUniformCall sc

/-- Names of the pending uniforms, in list order. -/
def uniformNames (sc : GlShaderCache) : List String :=
  sc.uniforms.map (fun u => u.input.name)

/-- Reset-then-reaccumulate: the state reached from the post-generate state
`sPost` by calling `gl_sc_reset` and then re-issuing calls that accumulate
byte-identical prelude/header/body text, uniform declarations, vertex layout
and blend state as `s` had. -/
def sc_reaccumulate (s sPost : GlShaderCache) : GlShaderCache :=
  { gl_sc_reset sPost with
    prelude_text := s.prelude_text
    header_text := s.header_text
    text := s.text
    uniforms := s.uniforms
    next_texture_unit := s.next_texture_unit
    next_image_unit := s.next_image_unit
    next_buffer_binding := s.next_buffer_binding
    params := { (gl_sc_reset sPost).params with
      vertex_attribs := s.params.vertex_attribs
      vertex_stride := s.params.vertex_stride
      enable_blend := s.params.enable_blend
      blend_src_rgb := s.params.blend_src_rgb
      blend_dst_rgb := s.params.blend_dst_rgb
      blend_src_alpha := s.params.blend_src_alpha
      blend_dst_alpha := s.params.blend_dst_alpha } }

/-- Texture usable as a sampling source, for concrete runs. -/
def tex_src : RaTex :=
  { params := { format := fmt_rgba8, w := 4, h := 4, render_src := true },
    handle := 11, texture := 11, target := GL_TEXTURE_2D }

/-- Heap model resolving every handle to `tex_src`. -/
def texOf0 : Nat → RaTex := fun _ => tex_src

/-- Compiled-pass private state for the concrete compute run. -/
def pass_gl0 : RaRenderpassGl := { program := 7 }

/-- Concrete compute pass (no inputs). -/
def pass_compute0 : RaRenderpass :=
  { id := 0, params := { type := RaRenderpassType.compute } }

/-- Concrete run request: dispatch 1x1x1 work groups of `pass_compute0`. -/
def run_compute0 : RaRenderpassRunParams :=
  { pass := pass_compute0, compute_groups := (1, 1, 1) }

/-- GL trace of the concrete compute dispatch. -/
def trace_compute0 : List GlEvent :=
  ((gl_renderpass_run texOf0 pass_gl0 run_compute0).map (fun r => r.1)).getD []

/-- Mapped buffer with one outstanding fence (sync object 5). -/
def buf0 : RaMappedBuffer := { data := 1000, size := 4096, pbo := 3, fence := some 5 }

/-- GPU model where only sync object 9 has signaled. -/
def sig9 : Nat → Bool := fun f => f == 9

/-- One regular plane with two components (r and g). -/
def plane_rg : MpRegularImgfmtPlane :=
  { num_components := 2, components := fun i => if i < 2 then i + 1 else 0 }

/-- Regular image format with a single two-component 8-bit plane. -/
def regfmt_rg : MpRegularImgfmt :=
  { component_size := 1, component_pad := 0, planes := [plane_rg],
    chroma_w := 1, chroma_h := 1 }

/-- Backend context that reports image format 100 as `regfmt_rg`; its table
has no two-component format, so plane resolution fails. -/
def ra5 : Ra :=
  { ra0 with mp_get_regular_imgfmt := fun i => if i == 100 then some regfmt_rg else none }

/-- Texture-creation request: render destination on a non-renderable format. -/
def tex_params_nonrenderable : RaTexParams :=
  { format := fmt_r8_norender, dimensions := 2, w := 4, h := 4, render_dst := true }

/-- Texture-creation request: render destination on a renderable format (the
completeness check outcome is supplied separately). -/
def tex_params_renderable : RaTexParams :=
  { format := fmt_rgba8, dimensions := 2, w := 4, h := 4, render_dst := true }

/-- Post-generate state of the first concrete generate on `sc0`. -/
def sc0_gen : GlShaderCache :=
  (gl_sc_generate sc0 RaRenderpassType.raster).getD sc0

/-- Second-cycle state: reset after the first generate, byte-identical
re-accumulation. -/
def sc0_again : GlShaderCache := sc_reaccumulate sc0 sc0_gen

/-- Concrete uniform-declaration call sequence: "a" is declared, "b" is
declared, then "a" is re-declared with a different type. -/
def calls_aba : List ScUniformCall :=
  [ScUniformCall.f "a" 1, ScUniformCall.i "b" 2, ScUniformCall.vec2 "a" 3 4]

/-- Backend on which every `renderpass_create` fails (shader compile error). -/
def ra_fail : Ra := { ra0 with createOk := fun _ => false }

/-- The `sc0` accumulation over the failing backend. -/
def sc0_fail : GlShaderCache := { sc0 with ra := ra_fail }

/-- Cache key `sc0` generates for a raster pass. -/
def key_sc0 : String :=
  (sc_key { sc0 with params.type := RaRenderpassType.raster } RaRenderpassType.raster).getD ""

/-- Post-generate state of the eviction run on the full pool. -/
def sc_full_gen : GlShaderCache :=
  (gl_sc_generate sc_full RaRenderpassType.raster).getD sc_full

/-- Cache key the eviction run on `sc_full` generates. -/
def key_full : String :=
  (sc_key { sc_full with params.type := RaRenderpassType.raster } RaRenderpassType.raster).getD ""

/-- Post-generate state of the cache-hit run on the exposure entry. -/
def sc_exposure_gen : GlShaderCache :=
  (gl_sc_generate sc_exposure_hit RaRenderpassType.raster).getD sc_exposure_hit

/-- The pending "exposure" uniform record. -/
def uni_exposure : ScUniform :=
  sc_exposure_hit.uniforms.getD 0 (sc_uniform_blank "exposure")

/-- The pass input belonging to "exposure". -/
def input_exposure : RaRenderpassInput :=
  pass_exposure.params.inputs.getD 0 (sc_uniform_blank "exposure").input

/-! ## Shared lemmas -/

/-- Decomposition of a successful `find?`: the hit satisfies the condition and
is the first element to do so. -/
theorem list_find?_split {α : Type} {p : α → Bool} {l : List α} {a : α}
    (h : l.find? p = some a) :
    p a = true ∧ ∃ pre suf, l = pre ++ a :: suf ∧ ∀ x ∈ pre, p x = false := by
  induction l with
  | nil => simp [List.find?] at h
  | cons x xs ih =>
    by_cases hx : p x = true
    · rw [List.find?_cons_of_pos _ hx] at h
      cases h
      exact ⟨hx, [], xs, rfl, by simp⟩
    · rw [List.find?_cons_of_neg _ hx] at h
      obtain ⟨hpa, pre, suf, heq, hpre⟩ := ih h
      refine ⟨hpa, x :: pre, suf, by simp [heq], ?_⟩
      intro y hy
      rcases List.mem_cons.mp hy with hy | hy
      · subst hy; exact Bool.not_eq_true _ ▸ (by simpa using hx)
      · exact hpre y hy

/-- Spelling out `ra_format_is_regular`. -/
theorem ra_format_is_regular_spec (fmt : RaFormat)
    (h : ra_format_is_regular fmt = true) :
    fmt.pixel_size ≠ 0 ∧ fmt.num_components ≠ 0 ∧
    (∀ i, i < fmt.num_components →
      fmt.component_size i = fmt.component_size 0 ∧
      fmt.component_depth i = fmt.component_depth 0) ∧
    fmt.component_size 0 * fmt.num_components = fmt.pixel_size * 8 := by
  unfold ra_format_is_regular at h
  split_ifs at h with h1 h2
  refine ⟨fun hps => h1 (by simp [hps]), fun hnc => h1 (by simp [hnc]), ?_,
    beq_iff_eq.mp h⟩
  intro i hi
  have := (List.all_eq_true.mp h2) i (List.mem_range.mpr hi)
  simpa [Bool.and_eq_true, beq_iff_eq] using this

/-! ## C6: format lookup postconditions -/

/-- C6.  Any format returned by `ra_find_unorm_format`, `ra_find_uint_format`
or `ra_find_float16_format` has the matching color type, the requested
component count and total pixel byte size, the requested component depth, the
linear-filter flag for the unorm/float16 variants, and is regular (equal
per-component size and depth across components, sizes summing to the pixel
bit size); each lookup returns the first matching table entry, and returns
`none` exactly when no entry matches. -/
theorem c6_format_lookup_postconditions (ra : Ra) (b n : Nat) :
    (∀ fmt, ra_find_unorm_format ra b n = some fmt →
      fmt.ctype = RaCtype.unorm ∧ fmt.linear_filter = true ∧
      fmt.num_components = n ∧ fmt.pixel_size = b * n ∧
      fmt.component_depth 0 = b * 8 ∧
      (∀ i, i < fmt.num_components →
        fmt.component_size i = fmt.component_size 0 ∧
        fmt.component_depth i = fmt.component_depth 0) ∧
      fmt.component_size 0 * fmt.num_components = fmt.pixel_size * 8 ∧
      (∃ pre suf, ra.formats = pre ++ fmt :: suf ∧
        ∀ g ∈ pre, unorm_match b n g = false)) ∧
    (ra_find_unorm_format ra b n = none ↔
      ∀ fmt ∈ ra.formats, unorm_match b n fmt = false) ∧
    (∀ fmt, ra_find_uint_format ra b n = some fmt →
      fmt.ctype = RaCtype.uint ∧
      fmt.num_components = n ∧ fmt.pixel_size = b * n ∧
      fmt.component_depth 0 = b * 8 ∧
      (∀ i, i < fmt.num_components →
        fmt.component_size i = fmt.component_size 0 ∧
        fmt.component_depth i = fmt.component_depth 0) ∧
      fmt.component_size 0 * fmt.num_components = fmt.pixel_size * 8 ∧
      (∃ pre suf, ra.formats = pre ++ fmt :: suf ∧
        ∀ g ∈ pre, uint_match b n g = false)) ∧
    (ra_find_uint_format ra b n = none ↔
      ∀ fmt ∈ ra.formats, uint_match b n fmt = false) ∧
    (∀ fmt, ra_find_float16_format ra n = some fmt →
      fmt.ctype = RaCtype.float ∧ fmt.linear_filter = true ∧
      fmt.num_components = n ∧ fmt.pixel_size = 4 * n ∧
      fmt.component_depth 0 = 16 ∧
      (∀ i, i < fmt.num_components →
        fmt.component_size i = fmt.component_size 0 ∧
        fmt.component_depth i = fmt.component_depth 0) ∧
      fmt.component_size 0 * fmt.num_components = fmt.pixel_size * 8 ∧
      (∃ pre suf, ra.formats = pre ++ fmt :: suf ∧
        ∀ g ∈ pre, float16_match n g = false)) ∧
    (ra_find_float16_format ra n = none ↔
      ∀ fmt ∈ ra.formats, float16_match n fmt = false) := by
  refine ⟨?_, ?_, ?_, ?_, ?_, ?_⟩
  · intro fmt h
    obtain ⟨hp, pre, suf, hsplit, hpre⟩ := list_find?_split h
    simp only [unorm_match, Bool.and_eq_true, beq_iff_eq] at hp
    obtain ⟨⟨⟨⟨⟨hct, hnc⟩, hps⟩, hd⟩, hlf⟩, hreg⟩ := hp
    obtain ⟨_, _, hcomp, hsum⟩ := ra_format_is_regular_spec fmt hreg
    exact ⟨hct, hlf, hnc, hps, hd, hcomp, hsum, pre, suf, hsplit, hpre⟩
  · rw [ra_find_unorm_format, List.find?_eq_none]
    constructor
    · intro h fmt hm; exact Bool.not_eq_true _ ▸ (by simpa using h fmt hm)
    · intro h fmt hm; simp [h fmt hm]
  · intro fmt h
    obtain ⟨hp, pre, suf, hsplit, hpre⟩ := list_find?_split h
    simp only [uint_match, Bool.and_eq_true, beq_iff_eq] at hp
    obtain ⟨⟨⟨⟨hct, hnc⟩, hps⟩, hd⟩, hreg⟩ := hp
    obtain ⟨_, _, hcomp, hsum⟩ := ra_format_is_regular_spec fmt hreg
    exact ⟨hct, hnc, hps, hd, hcomp, hsum, pre, suf, hsplit, hpre⟩
  · rw [ra_find_uint_format, List.find?_eq_none]
    constructor
    · intro h fmt hm; exact Bool.not_eq_true _ ▸ (by simpa using h fmt hm)
    · intro h fmt hm; simp [h fmt hm]
  · intro fmt h
    obtain ⟨hp, pre, suf, hsplit, hpre⟩ := list_find?_split h
    simp only [float16_match, Bool.and_eq_true, beq_iff_eq] at hp
    obtain ⟨⟨⟨⟨⟨hct, hnc⟩, hps⟩, hd⟩, hlf⟩, hreg⟩ := hp
    obtain ⟨_, _, hcomp, hsum⟩ := ra_format_is_regular_spec fmt hreg
    exact ⟨hct, hlf, hnc, hps, hd, hcomp, hsum, pre, suf, hsplit, hpre⟩
  · rw [ra_find_float16_format, List.find?_eq_none]
    constructor
    · intro h fmt hm; exact Bool.not_eq_true _ ▸ (by simpa using h fmt hm)
    · intro h fmt hm; simp [h fmt hm]

/-- Witness for C6 at the concrete table `ra0`: the unorm lookup for 1-byte,
4-component requests finds `fmt_rgba8` and the proved postconditions hold of
it. -/
theorem c6_witness :
    ra_find_unorm_format ra0 1 4 = some fmt_rgba8 ∧
    fmt_rgba8.ctype = RaCtype.unorm ∧ fmt_rgba8.linear_filter = true ∧
    fmt_rgba8.num_components = 4 ∧ fmt_rgba8.pixel_size = 1 * 4 := by
  have h : ra_find_unorm_format ra0 1 4 = some fmt_rgba8 := by rfl
  have hc := (c6_format_lookup_postconditions ra0 1 4).1 fmt_rgba8 h
  exact ⟨h, hc.1, hc.2.1, hc.2.2.1, hc.2.2.2.1⟩

/-! ## C5: image-format resolution -/

/-- A format resolved by `find_plane_format` is fixed-point or unsigned
integer, never of unknown component type. -/
theorem find_plane_format_ctype (ra : Ra) (b c : Nat) (f : RaFormat)
    (h : find_plane_format ra b c = some f) :
    f.ctype = RaCtype.unorm ∨ f.ctype = RaCtype.uint := by
  unfold find_plane_format at h
  cases hu : ra_find_unorm_format ra b c with
  | some g =>
    rw [hu] at h
    cases h
    have hm := List.find?_some hu
    simp only [unorm_match, Bool.and_eq_true, beq_iff_eq] at hm
    exact Or.inl hm.1.1.1.1.1
  | none =>
    rw [hu] at h
    have hm := List.find?_some h
    simp only [uint_match, Bool.and_eq_true, beq_iff_eq] at hm
    exact Or.inr hm.1.1.1.1

/-- If the plane loop succeeds, every plane resolved, no plane trips the
truncation condition, and every resolved format agrees with a non-unknown
incoming component type. -/
theorem imgfmt_plane_loop_some (ra : Ra) (regfmt : MpRegularImgfmt) :
    ∀ (planes : List MpRegularImgfmtPlane) (cty : RaCtype)
      (res : List RaFormat × List (List Nat)),
      imgfmt_plane_loop ra regfmt planes cty = some res →
      ∀ p ∈ planes, ∃ f,
        find_plane_format ra regfmt.component_size p.num_components = some f ∧
        ¬(regfmt.component_size * 8 > f.component_depth 0 ∧
          regfmt.component_pad < 0) ∧
        (cty ≠ RaCtype.unknown → f.ctype = cty) := by
  intro planes
  induction planes with
  | nil => intro cty res h p hp; cases hp
  | cons plane rest ih =>
    intro cty res h p hp
    simp only [imgfmt_plane_loop] at h
    cases hf : find_plane_format ra regfmt.component_size plane.num_components with
    | none => rw [hf] at h; cases h
    | some fmt =>
      simp only [hf] at h
      by_cases hbad : regfmt.component_size * 8 > fmt.component_depth 0 ∧
          regfmt.component_pad < 0
      · rw [if_pos hbad] at h; cases h
      · rw [if_neg hbad] at h
        by_cases hmis : cty ≠ RaCtype.unknown ∧ cty ≠ fmt.ctype
        · rw [if_pos hmis] at h; cases h
        · rw [if_neg hmis] at h
          rcases List.mem_cons.mp hp with hp | hp
          · subst hp
            refine ⟨fmt, hf, hbad, ?_⟩
            intro hcu
            by_contra hne
            exact hmis ⟨hcu, fun hc => hne hc.symm⟩
          · cases hrec : imgfmt_plane_loop ra regfmt rest fmt.ctype with
            | none => rw [hrec] at h; cases h
            | some r2 =>
              obtain ⟨f, hff, hb, hcc⟩ := ih fmt.ctype r2 hrec p hp
              refine ⟨f, hff, hb, ?_⟩
              intro hcu
              have hcf : cty = fmt.ctype := by
                rcases not_and_or.mp hmis with h1 | h1
                · exact absurd hcu h1
                · exact not_not.mp h1
              have hfu : fmt.ctype ≠ RaCtype.unknown := hcf ▸ hcu
              rw [hcf]
              exact hcc hfu

/-- If the plane loop succeeds, the accumulated plane formats are exactly the
`find_plane_format` resolutions, in order. -/
theorem imgfmt_plane_loop_planes (ra : Ra) (regfmt : MpRegularImgfmt) :
    ∀ (planes : List MpRegularImgfmtPlane) (cty : RaCtype)
      (fs : List RaFormat) (cs : List (List Nat)),
      imgfmt_plane_loop ra regfmt planes cty = some (fs, cs) →
      ∀ n : Nat, fs[n]? = (planes[n]?).bind
        (fun p => find_plane_format ra regfmt.component_size p.num_components) := by
  intro planes
  induction planes with
  | nil =>
    intro cty fs cs h n
    simp only [imgfmt_plane_loop, Option.some.injEq, Prod.mk.injEq] at h
    simp [← h.1]
  | cons plane rest ih =>
    intro cty fs cs h n
    simp only [imgfmt_plane_loop] at h
    cases hf : find_plane_format ra regfmt.component_size plane.num_components with
    | none => rw [hf] at h; cases h
    | some fmt =>
      simp only [hf] at h
      by_cases hbad : regfmt.component_size * 8 > fmt.component_depth 0 ∧
          regfmt.component_pad < 0
      · rw [if_pos hbad] at h; cases h
      · rw [if_neg hbad] at h
        by_cases hmis : cty ≠ RaCtype.unknown ∧ cty ≠ fmt.ctype
        · rw [if_pos hmis] at h; cases h
        · rw [if_neg hmis] at h
          cases hrec : imgfmt_plane_loop ra regfmt rest fmt.ctype with
          | none => rw [hrec] at h; cases h
          | some r2 =>
            obtain ⟨fs2, cs2⟩ := r2
            rw [hrec] at h
            simp only [Option.some.injEq, Prod.mk.injEq] at h
            obtain ⟨hfs, hcs⟩ := h
            subst hfs
            cases n with
            | zero => simp [hf]
            | succ m => simpa using ih fmt.ctype fs2 cs2 hrec m

/-- If the full plane loop (starting from RA_CTYPE_UNKNOWN) succeeds, every
two resolved plane formats share one component type. -/
theorem imgfmt_plane_loop_consistent (ra : Ra) (regfmt : MpRegularImgfmt)
    (planes : List MpRegularImgfmtPlane) (res : List RaFormat × List (List Nat))
    (h : imgfmt_plane_loop ra regfmt planes RaCtype.unknown = some res) :
    ∀ p ∈ planes, ∀ q ∈ planes, ∀ fp fq,
      find_plane_format ra regfmt.component_size p.num_components = some fp →
      find_plane_format ra regfmt.component_size q.num_components = some fq →
      fp.ctype = fq.ctype := by
  cases planes with
  | nil => intro p hp; cases hp
  | cons plane rest =>
    simp only [imgfmt_plane_loop] at h
    cases hf : find_plane_format ra regfmt.component_size plane.num_components with
    | none => rw [hf] at h; cases h
    | some f0 =>
      simp only [hf] at h
      by_cases hbad : regfmt.component_size * 8 > f0.component_depth 0 ∧
          regfmt.component_pad < 0
      · rw [if_pos hbad] at h; cases h
      · rw [if_neg hbad] at h
        rw [if_neg (by simp)] at h
        cases hrec : imgfmt_plane_loop ra regfmt rest f0.ctype with
        | none => rw [hrec] at h; cases h
        | some r2 =>
          have hctyf0 : f0.ctype ≠ RaCtype.unknown := by
            rcases find_plane_format_ctype ra regfmt.component_size
              plane.num_components f0 hf with h1 | h1 <;> simp [h1]
          have hall : ∀ p ∈ plane :: rest, ∃ f,
              find_plane_format ra regfmt.component_size p.num_components = some f ∧
              f.ctype = f0.ctype := by
            intro p hp
            rcases List.mem_cons.mp hp with hp | hp
            · subst hp; exact ⟨f0, hf, rfl⟩
            · obtain ⟨f, hff, _, hcc⟩ := imgfmt_plane_loop_some ra regfmt rest
                f0.ctype r2 hrec p hp
              exact ⟨f, hff, hcc hctyf0⟩
          intro p hp q hq fp fq hfp hfq
          obtain ⟨f1, hf1, e1⟩ := hall p hp
          obtain ⟨f2, hf2, e2⟩ := hall q hq
          rw [hfp] at hf1
          rw [hfq] at hf2
          cases hf1
          cases hf2
          rw [e1, e2]

/-- C5.  For a pixel format decomposable into regular planes: each plane's
native format is selected with `find_unorm` first, `find_uint` only when no
fixed-point format exists; a successful resolution returns exactly those
per-plane formats; and resolution fails when some plane has no matching
format, when the requested component depth exceeds the chosen format's depth
while the component padding is negative, or when two planes resolve to
formats of different color types. -/
theorem c5_image_format_resolution (ra : Ra) (imgfmt : Nat)
    (regfmt : MpRegularImgfmt)
    (hreg : ra.mp_get_regular_imgfmt imgfmt = some regfmt) :
    (∀ b c f, ra_find_unorm_format ra b c = some f →
      find_plane_format ra b c = some f) ∧
    (∀ b c, ra_find_unorm_format ra b c = none →
      find_plane_format ra b c = ra_find_uint_format ra b c) ∧
    (∀ desc, ra_get_imgfmt_desc ra imgfmt = some desc →
      ∀ n : Nat, desc.planes[n]? = (regfmt.planes[n]?).bind
        (fun p => find_plane_format ra regfmt.component_size p.num_components)) ∧
    ((∃ p ∈ regfmt.planes,
        find_plane_format ra regfmt.component_size p.num_components = none) →
      ra_get_imgfmt_desc ra imgfmt = none) ∧
    ((∃ p ∈ regfmt.planes, ∃ f,
        find_plane_format ra regfmt.component_size p.num_components = some f ∧
        regfmt.component_size * 8 > f.component_depth 0 ∧
        regfmt.component_pad < 0) →
      ra_get_imgfmt_desc ra imgfmt = none) ∧
    ((∃ p ∈ regfmt.planes, ∃ q ∈ regfmt.planes, ∃ fp fq,
        find_plane_format ra regfmt.component_size p.num_components = some fp ∧
        find_plane_format ra regfmt.component_size q.num_components = some fq ∧
        fp.ctype ≠ fq.ctype) →
      ra_get_imgfmt_desc ra imgfmt = none) := by
  refine ⟨?_, ?_, ?_, ?_, ?_, ?_⟩
  · intro b c f h; unfold find_plane_format; rw [h]
  · intro b c h; unfold find_plane_format; rw [h]
  · intro desc hd n
    simp only [ra_get_imgfmt_desc, hreg] at hd
    cases hloop : imgfmt_plane_loop ra regfmt regfmt.planes RaCtype.unknown with
    | none => rw [hloop] at hd; cases hd
    | some r =>
      obtain ⟨fs, cs⟩ := r
      rw [hloop] at hd
      cases hd
      simpa using imgfmt_plane_loop_planes ra regfmt regfmt.planes
        RaCtype.unknown fs cs hloop n
  · rintro ⟨p, hp, hnone⟩
    simp only [ra_get_imgfmt_desc, hreg]
    cases hloop : imgfmt_plane_loop ra regfmt regfmt.planes RaCtype.unknown with
    | none => rfl
    | some r =>
      obtain ⟨f, hff, -, -⟩ := imgfmt_plane_loop_some ra regfmt regfmt.planes
        RaCtype.unknown r hloop p hp
      rw [hff] at hnone
      cases hnone
  · rintro ⟨p, hp, f, hff, hdepth, hpad⟩
    simp only [ra_get_imgfmt_desc, hreg]
    cases hloop : imgfmt_plane_loop ra regfmt regfmt.planes RaCtype.unknown with
    | none => rfl
    | some r =>
      obtain ⟨f2, hff2, hb, -⟩ := imgfmt_plane_loop_some ra regfmt regfmt.planes
        RaCtype.unknown r hloop p hp
      rw [hff] at hff2
      cases hff2
      exact absurd ⟨hdepth, hpad⟩ hb
  · rintro ⟨p, hp, q, hq, fp, fq, hfp, hfq, hne⟩
    simp only [ra_get_imgfmt_desc, hreg]
    cases hloop : imgfmt_plane_loop ra regfmt regfmt.planes RaCtype.unknown with
    | none => rfl
    | some r =>
      exact absurd (imgfmt_plane_loop_consistent ra regfmt regfmt.planes r
        hloop p hp q hq fp fq hfp hfq) hne

/-- Witness for C5 at the concrete context `ra5`: image format 100 is regular
with a single 2-component plane, no 2-component format exists in the table,
and resolution indeed fails. -/
theorem c5_witness :
    ra5.mp_get_regular_imgfmt 100 = some regfmt_rg ∧
    find_plane_format ra5 1 2 = none ∧
    ra_get_imgfmt_desc ra5 100 = none := by
  have hreg : ra5.mp_get_regular_imgfmt 100 = some regfmt_rg := by rfl
  have hnone : find_plane_format ra5 1 2 = none := by rfl
  have h := (c5_image_format_resolution ra5 100 regfmt_rg hreg).2.2.2.1
    ⟨plane_rg, by simp [regfmt_rg], hnone⟩
  exact ⟨hreg, hnone, h⟩

/-! ## C8: texture-creation failure -/

/-- C8.  For a creation request with the render-destination flag set,
`gl_tex_create` returns no texture when the format is not renderable, and
also when the completeness validation after attaching the framebuffer fails;
in both cases the partially created texture is released (its GL objects
deleted) and the failure is reported as the absent result. -/
theorem c8_tex_create_failure (caps_fb : Bool) (fb_status texture_id fbo_id : Nat)
    (params : RaTexParams) (hdim : params.dimensions = 2)
    (hdst : params.render_dst = true) (hfbo : fbo_id ≠ 0) :
    (params.format.renderable = false →
      ∃ ev, gl_tex_create caps_fb fb_status texture_id fbo_id params =
          some (none, ev) ∧
        GlEvent.deleteTextures texture_id ∈ ev) ∧
    (params.format.renderable = true → caps_fb = true →
      fb_status ≠ GL_FRAMEBUFFER_COMPLETE →
      ∃ ev, gl_tex_create caps_fb fb_status texture_id fbo_id params =
          some (none, ev) ∧
        GlEvent.deleteFramebuffers fbo_id ∈ ev ∧
        GlEvent.deleteTextures texture_id ∈ ev) := by
  constructor
  · intro hren
    cases hnn : params.non_normalized
    all_goals
      simp [gl_tex_create, hdim, hdst, hren, hnn, gl_tex_destroy_events]
  · intro hren hcaps hfb
    subst hcaps
    cases hnn : params.non_normalized
    all_goals
      simp [gl_tex_create, hdim, hdst, hren, hnn, hfb, hfbo, gl_tex_destroy_events]

/-- Witness for C8: a render-destination request on the non-renderable `r8`
format fails with the texture deleted, and a renderable request whose
completeness check reports status 0 fails with both objects deleted. -/
theorem c8_witness :
    (∃ ev, gl_tex_create true 0 21 22 tex_params_nonrenderable = some (none, ev) ∧
      GlEvent.deleteTextures 21 ∈ ev) ∧
    (∃ ev, gl_tex_create true 0 21 22 tex_params_renderable = some (none, ev) ∧
      GlEvent.deleteFramebuffers 22 ∈ ev ∧ GlEvent.deleteTextures 21 ∈ ev) :=
  ⟨(c8_tex_create_failure true 0 21 22 tex_params_nonrenderable rfl rfl
      (by decide)).1 rfl,
   (c8_tex_create_failure true 0 21 22 tex_params_renderable rfl rfl
      (by decide)).2 rfl rfl (by decide)⟩

/-! ## C7: mapped-buffer fence discipline -/

/-- C7.  After a texture upload sourced from a mapped buffer, the buffer
carries the freshly installed fence (replacing any pre-existing one, which is
deleted); polling is non-blocking (`ClientWaitSync` with flags 0 and timeout
0), returns not-ready while the GPU has not signaled, resolves the fence
exactly once when it has, and afterwards keeps returning ready without
touching GL again. -/
theorem c7_mapped_buffer_fence (use_pbo : Bool) (signaled : Nat → Bool)
    (tex : RaTex) (src : Nat) (stride : Int) (rc : Option MpRect)
    (buf : RaMappedBuffer) (new_fence : Nat)
    (hdim : tex.params.dimensions = 2) :
    ∃ bufU ev,
      gl_tex_upload use_pbo tex src stride rc (some buf) new_fence =
        some (some bufU, ev) ∧
      bufU.fence = some new_fence ∧
      GlEvent.fenceSync new_fence GL_SYNC_GPU_COMMANDS_COMPLETE 0 ∈ ev ∧
      (∀ f0, buf.fence = some f0 → GlEvent.deleteSync f0 ∈ ev) ∧
      (signaled new_fence = false →
        gl_poll_mapped_buffer signaled bufU =
          (false, bufU, [GlEvent.clientWaitSync new_fence 0 0])) ∧
      (signaled new_fence = true →
        ∃ bufR, gl_poll_mapped_buffer signaled bufU =
            (true, bufR, [GlEvent.clientWaitSync new_fence 0 0,
              GlEvent.deleteSync new_fence]) ∧
          bufR.fence = none ∧
          gl_poll_mapped_buffer signaled bufR = (true, bufR, [])) := by
  simp only [gl_tex_upload, hdim]
  refine ⟨{ buf with fence := some new_fence }, _, rfl, rfl, by simp, ?_, ?_, ?_⟩
  · intro f0 hf0
    rw [hf0]
    simp
  · intro hsig
    simp [gl_poll_mapped_buffer, hsig, GL_ALREADY_SIGNALED, GL_TIMEOUT_EXPIRED]
  · intro hsig
    refine ⟨{ buf with fence := none }, ?_, rfl, by simp [gl_poll_mapped_buffer]⟩
    simp [gl_poll_mapped_buffer, hsig]

/-- Witness for C7: uploading through `buf0` (outstanding fence 5) installs
fence 9 and deletes fence 5; under the GPU model `sig9` the subsequent poll
resolves it. -/
theorem c7_witness :
    tex_src.params.dimensions = 2 ∧
    ∃ bufU ev,
      gl_tex_upload false tex_src 1004 4 none (some buf0) 9 =
        some (some bufU, ev) ∧
      bufU.fence = some 9 ∧
      GlEvent.fenceSync 9 GL_SYNC_GPU_COMMANDS_COMPLETE 0 ∈ ev ∧
      GlEvent.deleteSync 5 ∈ ev ∧
      (∃ bufR, gl_poll_mapped_buffer sig9 bufU =
          (true, bufR, [GlEvent.clientWaitSync 9 0 0, GlEvent.deleteSync 9]) ∧
        bufR.fence = none ∧
        gl_poll_mapped_buffer sig9 bufR = (true, bufR, [])) := by
  obtain ⟨bufU, ev, hup, hfence, hmem, hdel, -, hsig⟩ :=
    c7_mapped_buffer_fence false sig9 tex_src 1004 4 none buf0 9 rfl
  exact ⟨rfl, bufU, ev, hup, hfence, hmem, hdel 5 rfl, hsig rfl⟩

/-! ## C4: compute dispatch barrier (corrected) -/

/-- Counterexample to C4 as stated: in the trace of a concrete compute-pass
execution the dispatch is not followed by a full memory barrier
(`GL_ALL_BARRIER_BITS`); no full barrier occurs at all.  The barrier actually
issued is `GL_TEXTURE_FETCH_BARRIER_BIT`. -/
theorem c4_counterexample :
    ¬ ([GlEvent.dispatchCompute 1 1 1, GlEvent.memoryBarrier GL_ALL_BARRIER_BITS]
        <:+: trace_compute0) ∧
    (GlEvent.memoryBarrier GL_ALL_BARRIER_BITS ∉ trace_compute0) ∧
    ([GlEvent.dispatchCompute 1 1 1,
      GlEvent.memoryBarrier GL_TEXTURE_FETCH_BARRIER_BIT] <:+: trace_compute0) := by
  refine ⟨by decide, by decide, by decide⟩

/-- C4 (amended).  Every execution of a compute-type pass through
`gl_renderpass_run` issues the 3-dimensional dispatch immediately followed —
before the call returns — by a `glMemoryBarrier(GL_TEXTURE_FETCH_BARRIER_BIT)`
memory barrier, the barrier covering texture fetches so that subsequent
in-program-order texture sampling observes the dispatch's writes. -/
theorem c4_compute_dispatch_barrier (texOf : Nat → RaTex)
    (pass_gl : RaRenderpassGl) (params : RaRenderpassRunParams)
    (res : List GlEvent × RaRenderpassGl)
    (hty : params.pass.params.type = RaRenderpassType.compute)
    (hrun : gl_renderpass_run texOf pass_gl params = some res) :
    ∃ pre suf, res.1 = pre ++
      [GlEvent.dispatchCompute params.compute_groups.1 params.compute_groups.2.1
        params.compute_groups.2.2,
       GlEvent.memoryBarrier GL_TEXTURE_FETCH_BARRIER_BIT] ++ suf := by
  simp only [gl_renderpass_run, hty] at hrun
  cases hU : gl_events_of_values (gl_update_uniform texOf pass_gl params.pass)
      params.values with
  | none => rw [hU] at hrun; cases hrun
  | some evU =>
    rw [hU] at hrun
    cases hD : gl_events_of_values (gl_disable_binding texOf params.pass)
        params.values with
    | none => rw [hD] at hrun; cases hrun
    | some evD =>
      rw [hD] at hrun
      simp only [Option.bind_eq_bind, Option.some_bind, Option.pure_def,
        Option.some.injEq] at hrun
      subst hrun
      refine ⟨[GlEvent.useProgram pass_gl.program] ++ evU
        ++ [GlEvent.activeTexture GL_TEXTURE0],
        evD ++ [GlEvent.activeTexture GL_TEXTURE0, GlEvent.useProgram 0], ?_⟩
      simp [List.append_assoc]

/-- Witness for the amended C4 at the concrete compute run. -/
theorem c4_witness :
    run_compute0.pass.params.type = RaRenderpassType.compute ∧
    ∃ pre suf, trace_compute0 = pre ++
      [GlEvent.dispatchCompute 1 1 1,
       GlEvent.memoryBarrier GL_TEXTURE_FETCH_BARRIER_BIT] ++ suf := by
  have hty : run_compute0.pass.params.type = RaRenderpassType.compute := rfl
  have hrun : gl_renderpass_run texOf0 pass_gl0 run_compute0 =
      some ((gl_renderpass_run texOf0 pass_gl0 run_compute0).getD ([], pass_gl0)) := by
    rfl
  exact ⟨hty, c4_compute_dispatch_barrier texOf0 pass_gl0 run_compute0 _ hty hrun⟩

/-! ## C9: reset after every dispatch cycle -/

/-- C9.  Every completed invocation of a dispatch entry point — whether or not
pass creation succeeded — leaves the assembly state reset: prelude, header
and body text empty, pending uniform list empty, binding counters back at 1
(slot 0 reserved), pass params zeroed, the pending-shader marker cleared and
the needs-reset flag cleared. -/
theorem c9_reset_after_cycle (sc : GlShaderCache) (target : RaTex)
    (vertex_count w h d : Nat) :
    (∀ sc2, gl_sc_dispatch_draw sc target vertex_count = some sc2 →
      sc2.prelude_text = "" ∧ sc2.header_text = "" ∧ sc2.text = "" ∧
      sc2.uniforms = [] ∧ sc2.next_texture_unit = 1 ∧ sc2.next_image_unit = 1 ∧
      sc2.next_buffer_binding = 1 ∧ sc2.current_shader = none ∧
      sc2.params = {} ∧ sc2.needs_reset = false) ∧
    (∀ sc2, gl_sc_dispatch_compute sc w h d = some sc2 →
      sc2.prelude_text = "" ∧ sc2.header_text = "" ∧ sc2.text = "" ∧
      sc2.uniforms = [] ∧ sc2.next_texture_unit = 1 ∧ sc2.next_image_unit = 1 ∧
      sc2.next_buffer_binding = 1 ∧ sc2.current_shader = none ∧
      sc2.params = {} ∧ sc2.needs_reset = false) := by
  constructor
  · intro sc2 h
    simp only [gl_sc_dispatch_draw, Option.bind_eq_bind] at h
    cases hg : gl_sc_generate sc RaRenderpassType.raster with
    | none => rw [hg] at h; cases h
    | some s1 =>
      rw [hg] at h
      simp only [Option.some_bind, Option.pure_def, Option.some.injEq] at h
      subst h
      cases sc_current_pass s1 <;> simp [gl_sc_reset]
  · intro sc2 h
    simp only [gl_sc_dispatch_compute, Option.bind_eq_bind] at h
    cases hg : gl_sc_generate sc RaRenderpassType.compute with
    | none => rw [hg] at h; cases h
    | some s1 =>
      rw [hg] at h
      simp only [Option.some_bind, Option.pure_def, Option.some.injEq] at h
      subst h
      cases sc_current_pass s1 <;> simp [gl_sc_reset]

/-- Witness for C9: a concrete draw dispatch on `sc0` (creation succeeds) and
one on `sc0_fail` (creation fails) both complete and leave the state reset. -/
theorem c9_witness :
    (∃ sc2, gl_sc_dispatch_draw sc0 tex_src 6 = some sc2 ∧
      sc2.text = "" ∧ sc2.uniforms = [] ∧ sc2.needs_reset = false) ∧
    (∃ sc2, gl_sc_dispatch_draw sc0_fail tex_src 6 = some sc2 ∧
      sc2.text = "" ∧ sc2.uniforms = [] ∧ sc2.needs_reset = false) := by
  constructor
  · have hrun : gl_sc_dispatch_draw sc0 tex_src 6 =
        some ((gl_sc_dispatch_draw sc0 tex_src 6).getD sc0) := by rfl
    have h := (c9_reset_after_cycle sc0 tex_src 6 0 0 0).1 _ hrun
    exact ⟨_, hrun, h.2.2.1, h.2.2.2.1, h.2.2.2.2.2.2.2.2.2⟩
  · have hrun : gl_sc_dispatch_draw sc0_fail tex_src 6 =
        some ((gl_sc_dispatch_draw sc0_fail tex_src 6).getD sc0_fail) := by rfl
    have h := (c9_reset_after_cycle sc0_fail tex_src 6 0 0 0).1 _ hrun
    exact ⟨_, hrun, h.2.2.1, h.2.2.2.1, h.2.2.2.2.2.2.2.2.2⟩

/-! ## C10: uniform names are unique in a pending shader -/

/-- Mapping a list whose element at `i` keeps its image under `f` commutes
with `set`. -/
theorem list_map_set_eq {α β : Type} (f : α → β) (l : List α) (i : Nat) (a : α)
    (h : ∀ b, l[i]? = some b → f a = f b) :
    List.map f (l.set i a) = List.map f l := by
  induction l generalizing i with
  | nil => rfl
  | cons x xs ih =>
    cases i with
    | zero => simp [h x (by simp)]
    | succ j =>
      simp only [List.set_cons_succ, List.map_cons, List.cons.injEq]
      exact ⟨by trivial, ih j (fun b hb => h b (by simpa using hb))⟩

/-- Name bookkeeping of `find_uniform`: an existing name keeps the list of
names (same length, same positions), a new name is appended. -/
theorem find_uniform_names (us : List ScUniform) (name : String) :
    (name ∈ List.map (fun u => u.input.name) us →
      List.map (fun u => u.input.name) (find_uniform us name).1 =
        List.map (fun u => u.input.name) us) ∧
    (name ∉ List.map (fun u => u.input.name) us →
      List.map (fun u => u.input.name) (find_uniform us name).1 =
        List.map (fun u => u.input.name) us ++ [name]) := by
  induction us with
  | nil =>
    refine ⟨?_, ?_⟩
    · intro hmem; cases hmem
    · intro _; simp [find_uniform, sc_uniform_blank]
  | cons u us ih =>
    by_cases hu : u.input.name == name
    · refine ⟨?_, ?_⟩
      · intro _
        simp [find_uniform, hu, sc_uniform_blank, beq_iff_eq.mp hu]
      · intro hmem
        exact absurd (by simp [beq_iff_eq.mp hu]) hmem
    · obtain ⟨ih3, ih4⟩ := ih
      have hne : u.input.name ≠ name := by simpa using hu
      refine ⟨?_, ?_⟩
      · intro hmem
        rcases List.mem_cons.mp hmem with hmem | hmem
        · exact absurd hmem.symm hne
        · simp [find_uniform, hu, ih3 hmem]
      · intro hmem
        have hmem2 : name ∉ List.map (fun u => u.input.name) us := by
          intro hc; exact hmem (List.mem_cons_of_mem _ hc)
        simp [find_uniform, hu, ih4 hmem2]

/-- The per-setter field assignments never change a uniform's name, so
declaring through `sc_uniforms_after` leaves the names what `find_uniform`
made them. -/
theorem sc_uniforms_after_names (us0 : List ScUniform) (name : String)
    (g : ScUniform → ScUniform) (hg : ∀ u, (g u).input.name = u.input.name) :
    List.map (fun u => u.input.name) (sc_uniforms_after us0 name g) =
      List.map (fun u => u.input.name) (find_uniform us0 name).1 := by
  unfold sc_uniforms_after
  rcases hr : find_uniform us0 name with ⟨us, i⟩
  apply list_map_set_eq
  intro b hb
  rw [hg]
  have hgd : us.getD i (sc_uniform_blank name) = b := by
    rw [List.getD_eq_getElem?_getD, hb]
    rfl
  rw [hgd]

/-- Every uniform-declaration entry point only rewrites the found slot in a
way that keeps its name, so the pending name list behaves like
`find_uniform` says. -/
theorem applyUniformCall_names (s : GlShaderCache) (c : ScUniformCall) :
    (c.uname ∈ uniformNames s →
      uniformNames (applyUniformCall s c) = uniformNames s) ∧
    (c.uname ∉ uniformNames s →
      uniformNames (applyUniformCall s c) = uniformNames s ++ [c.uname]) := by
  obtain ⟨hmem, hnot⟩ := find_uniform_names s.uniforms (ScUniformCall.uname c)
  have hexts : ∀ (s2 : GlShaderCache) (e : String),
      (gl_sc_enable_extension s2 e).uniforms = s2.uniforms := by
    intro s2 e
    unfold gl_sc_enable_extension
    split <;> rfl
  constructor
  all_goals
    intro hm
    cases c <;>
      (simp only [applyUniformCall, gl_sc_uniform_f, gl_sc_uniform_i,
        gl_sc_uniform_vec2, gl_sc_uniform_vec3, gl_sc_uniform_mat2,
        gl_sc_uniform_mat3, gl_sc_uniform_texture, gl_sc_uniform_image2D_wo,
        gl_sc_ssbo, uniformNames, hexts]
       first
       | refine Eq.trans (sc_uniforms_after_names _ _ _ ?_) (hmem hm)
       | refine Eq.trans (sc_uniforms_after_names _ _ _ ?_) (hnot hm)
       exact fun u => rfl)

/-- C10.  Over any sequence of uniform-declaration calls the pending uniform
list never holds two entries with one name: a name already present is
overwritten in place (the name list — hence every position — is unchanged),
a new name is appended; starting from distinct names the names stay
pairwise distinct. -/
theorem c10_uniform_names_unique (sc : GlShaderCache)
    (h : (uniformNames sc).Nodup) (calls : List ScUniformCall) :
    (uniformNames (applyUniformCalls sc calls)).Nodup ∧
    (∀ (s : GlShaderCache) (c : ScUniformCall),
      (c.uname ∈ uniformNames s →
        uniformNames (applyUniformCall s c) = uniformNames s) ∧
      (c.uname ∉ uniformNames s →
        uniformNames (applyUniformCall s c) = uniformNames s ++ [c.uname])) := by
  refine ⟨?_, applyUniformCall_names⟩
  induction calls generalizing sc with
  | nil => exact h
  | cons c cs ih =>
    have hstep : (uniformNames (applyUniformCall sc c)).Nodup := by
      by_cases hm : c.uname ∈ uniformNames sc
      · rw [(applyUniformCall_names sc c).1 hm]; exact h
      · rw [(applyUniformCall_names sc c).2 hm]
        refine List.Nodup.append h (List.nodup_singleton _) ?_
        intro a ha hb
        rw [List.mem_singleton] at hb
        subst hb
        exact hm ha
    exact ih (applyUniformCall sc c) hstep

/-- Witness for C10 at the concrete call sequence `calls_aba`: starting from
the empty pending list, declaring "a", "b" and then "a" again leaves the
names ["a", "b"], pairwise distinct. -/
theorem c10_witness :
    uniformNames (applyUniformCalls sc0 calls_aba) = ["a", "b"] ∧
    (uniformNames (applyUniformCalls sc0 calls_aba)).Nodup := by
  refine ⟨by rfl, (c10_uniform_names_unique sc0 (by decide) calls_aba).1⟩

/-! ## Scaffolding for the `gl_sc_generate` claims -/

/-- Projection facts for the intermediate generate state. -/
@[simp] theorem sc_mid_entries (sc : GlShaderCache) (ty : RaRenderpassType)
    (f v c : Option String) : (sc_mid sc ty f v c).entries = sc.entries := rfl

@[simp] theorem sc_mid_uniforms (sc : GlShaderCache) (ty : RaRenderpassType)
    (f v c : Option String) : (sc_mid sc ty f v c).uniforms = sc.uniforms := rfl

@[simp] theorem sc_mid_ra (sc : GlShaderCache) (ty : RaRenderpassType)
    (f v c : Option String) : (sc_mid sc ty f v c).ra = sc.ra := rfl

@[simp] theorem sc_mid_exts (sc : GlShaderCache) (ty : RaRenderpassType)
    (f v c : Option String) : (sc_mid sc ty f v c).exts = sc.exts := rfl

@[simp] theorem sc_mid_create_count (sc : GlShaderCache) (ty : RaRenderpassType)
    (f v c : Option String) : (sc_mid sc ty f v c).create_count = sc.create_count := rfl

@[simp] theorem sc_mid_ra_log (sc : GlShaderCache) (ty : RaRenderpassType)
    (f v c : Option String) : (sc_mid sc ty f v c).ra_log = sc.ra_log := rfl

@[simp] theorem sc_mid_current_shader (sc : GlShaderCache) (ty : RaRenderpassType)
    (f v c : Option String) : (sc_mid sc ty f v c).current_shader = sc.current_shader := rfl

@[simp] theorem sc_mid_params_inputs (sc : GlShaderCache) (ty : RaRenderpassType)
    (f v c : Option String) : (sc_mid sc ty f v c).params.inputs = sc.params.inputs := rfl

/-- A successful generate passed the entry asserts, so its state was not
pending a reset and the assembly succeeded. -/
theorem gl_sc_generate_some_inv (sc : GlShaderCache) (ty : RaRenderpassType)
    (sc2 : GlShaderCache) (h : gl_sc_generate sc ty = some sc2) :
    sc.needs_reset = false ∧
    ∃ key frag vert comp,
      sc_assemble_of { sc with params.type := ty } ty = some (key, frag, vert, comp) := by
  by_cases hnr : sc.needs_reset = true
  · unfold gl_sc_generate at h
    rw [if_pos hnr] at h
    cases h
  · refine ⟨by simpa using hnr, ?_⟩
    cases hasm : sc_assemble_of { sc with params.type := ty } ty with
    | none =>
      unfold gl_sc_generate at h
      rw [if_neg hnr, hasm] at h
      cases h
    | some r =>
      obtain ⟨key, frag, vert, comp⟩ := r
      exact ⟨key, frag, vert, comp, rfl⟩

/-- Reduction of `gl_sc_generate` on a cache hit. -/
theorem gl_sc_generate_hit (sc : GlShaderCache) (ty : RaRenderpassType)
    (key : String) (frag vert comp : Option String) (i : Nat)
    (hnr : sc.needs_reset = false)
    (hasm : sc_assemble_of { sc with params.type := ty } ty =
      some (key, frag, vert, comp))
    (hfind : sc_find_entry sc.entries key = some i) :
    gl_sc_generate sc ty =
      sc_after_entry (sc_mid { sc with params.type := ty } ty frag vert comp) i := by
  unfold gl_sc_generate
  rw [if_neg (by simp [hnr]), hasm]
  simp [hfind]

/-- Reduction of `gl_sc_generate` on a cache miss. -/
theorem gl_sc_generate_miss (sc : GlShaderCache) (ty : RaRenderpassType)
    (key : String) (frag vert comp : Option String)
    (hnr : sc.needs_reset = false)
    (hasm : sc_assemble_of { sc with params.type := ty } ty =
      some (key, frag, vert, comp))
    (hfind : sc_find_entry sc.entries key = none) :
    gl_sc_generate sc ty =
      sc_insert_entry (sc_mid { sc with params.type := ty } ty frag vert comp) key := by
  unfold gl_sc_generate
  rw [if_neg (by simp [hnr]), hasm]
  simp [hfind]

/-- Inversion of the entry tail of generate. -/
theorem sc_after_entry_inv (sc : GlShaderCache) (i : Nat) (sc2 : GlShaderCache)
    (h : sc_after_entry sc i = some sc2) :
    ∃ e, sc.entries[i]? = some e ∧
      ((e.pass = none ∧ sc2 = sc) ∨
       (∃ pass, e.pass = some pass ∧
         sc.uniforms.length = e.cached_uniforms.length ∧
         sc.uniforms.length = pass.params.inputs.length ∧
         sc2 = { sc with
           values := (sc_update_uniforms sc.uniforms pass.params.inputs
             e.cached_uniforms 0).1
           entries := sc.entries.set i { e with cached_uniforms :=
             (sc_update_uniforms sc.uniforms pass.params.inputs
               e.cached_uniforms 0).2 }
           current_shader := some i })) := by
  cases he : sc.entries[i]? with
  | none =>
    simp only [sc_after_entry, he] at h
    exact Option.noConfusion h
  | some e =>
    simp only [sc_after_entry, he] at h
    refine ⟨e, rfl, ?_⟩
    cases hp : e.pass with
    | none =>
      simp only [hp, Option.some.injEq] at h
      exact Or.inl ⟨rfl, h.symm⟩
    | some pass =>
      simp only [hp] at h
      by_cases hc : (sc.uniforms.length == e.cached_uniforms.length &&
          sc.uniforms.length == pass.params.inputs.length) = true
      · rw [if_pos hc] at h
        rcases hu : sc_update_uniforms sc.uniforms pass.params.inputs
          e.cached_uniforms 0 with ⟨vals, cs⟩
        rw [hu] at h
        simp only [Option.some.injEq] at h
        simp only [Bool.and_eq_true, beq_iff_eq] at hc
        refine Or.inr ⟨pass, rfl, hc.1, hc.2, ?_⟩
        rw [hu]
        exact h.symm
      · rw [if_neg hc] at h
        cases h

/-- Helper: `sc_after_entry` with a pass present and counts matching. -/
theorem sc_after_entry_run (sc : GlShaderCache) (i : Nat) (e : ScEntry)
    (pass : RaRenderpass) (he : sc.entries[i]? = some e) (hp : e.pass = some pass)
    (h1 : sc.uniforms.length = e.cached_uniforms.length)
    (h2 : sc.uniforms.length = pass.params.inputs.length) :
    sc_after_entry sc i = some { sc with
      values := (sc_update_uniforms sc.uniforms pass.params.inputs
        e.cached_uniforms 0).1
      entries := sc.entries.set i { e with cached_uniforms :=
        (sc_update_uniforms sc.uniforms pass.params.inputs
          e.cached_uniforms 0).2 }
      current_shader := some i } := by
  simp only [sc_after_entry, he, hp]
  rw [if_pos (by rw [← h1, ← h2]; simp)]

/-- The update loop keeps the snapshot list length. -/
theorem sc_update_uniforms_length :
    ∀ (us : List ScUniform) (ins : List RaRenderpassInput)
      (cs : List UniformVal) (n : Nat),
      us.length = ins.length → us.length = cs.length →
      (sc_update_uniforms us ins cs n).2.length = cs.length := by
  intro us
  induction us with
  | nil =>
    intro ins cs n h1 h2
    cases cs with
    | nil => rfl
    | cons c cs => cases h2
  | cons u us ih =>
    intro ins cs n h1 h2
    cases ins with
    | nil => cases h1
    | cons input ins =>
      cases cs with
      | nil => cases h2
      | cons c cs =>
        simp only [sc_update_uniforms]
        have hrec := ih ins cs (n + 1) (by simpa using h1) (by simpa using h2)
        cases hch : sc_uniform_changed input c u.v <;> simp [hch, hrec]

/-- Every value the update loop emits has an index at least the running
index. -/
theorem sc_update_uniforms_index_ge :
    ∀ (us : List ScUniform) (ins : List RaRenderpassInput)
      (cs : List UniformVal) (n : Nat),
      ∀ v ∈ (sc_update_uniforms us ins cs n).1, n ≤ v.index := by
  intro us
  induction us with
  | nil => intro ins cs n v hv; simp [sc_update_uniforms] at hv
  | cons u us ih =>
    intro ins cs n v hv
    cases ins with
    | nil => simp [sc_update_uniforms] at hv
    | cons input ins =>
      cases cs with
      | nil => simp [sc_update_uniforms] at hv
      | cons c cs =>
        simp only [sc_update_uniforms] at hv
        cases hch : sc_uniform_changed input c u.v
        · rw [hch] at hv
          simp only [Bool.false_eq_true, if_false] at hv
          exact Nat.le_of_succ_le (ih ins cs (n + 1) v hv)
        · rw [hch] at hv
          simp only [eq_self_iff_true, if_true] at hv
          rcases List.mem_cons.mp hv with hv | hv
          · subst hv; exact Nat.le_refl n
          · exact Nat.le_of_succ_le (ih ins cs (n + 1) v hv)

/-- Per-index characterization of the update loop: a value is emitted exactly
for the byte-changed uniforms, carrying the new value, while the snapshot at
that index is updated to the new value (and kept otherwise). -/
theorem sc_update_uniforms_spec :
    ∀ (us : List ScUniform) (ins : List RaRenderpassInput)
      (cs : List UniformVal) (n k : Nat)
      (u : ScUniform) (input : RaRenderpassInput) (c : UniformVal),
      us[k]? = some u → ins[k]? = some input → cs[k]? = some c →
      (((sc_update_uniforms us ins cs n).1.any
          (fun v => v.index == n + k)) = sc_uniform_changed input c u.v) ∧
      (sc_uniform_changed input c u.v = true →
        ({ index := n + k, data := u.v } : RaRenderpassInputVal) ∈
          (sc_update_uniforms us ins cs n).1) ∧
      ((sc_update_uniforms us ins cs n).2[k]? =
        some (if sc_uniform_changed input c u.v then u.v else c)) := by
  intro us
  induction us with
  | nil => intro ins cs n k u input c hu _ _; simp at hu
  | cons u0 us ih =>
    intro ins cs n k u input c hu hi hc
    cases ins with
    | nil => simp at hi
    | cons input0 ins =>
      cases cs with
      | nil => simp at hc
      | cons c0 cs =>
        cases k with
        | zero =>
          simp only [List.getElem?_cons_zero, Option.some.injEq] at hu hi hc
          subst hu; subst hi; subst hc
          simp only [sc_update_uniforms, Nat.add_zero]
          cases hch : sc_uniform_changed input0 c0 u0.v
          · simp only [Bool.false_eq_true, if_false]
            have hany : ((sc_update_uniforms us ins cs (n + 1)).1.any
                (fun v => v.index == n)) = false := by
              rw [List.any_eq_false]
              intro v hv
              have hge := sc_update_uniforms_index_ge us ins cs (n + 1) v hv
              simp only [beq_iff_eq]
              omega
            exact ⟨hany, fun hcontra => hcontra.elim, by simp⟩
          · simp only [eq_self_iff_true, if_true]
            refine ⟨by simp, fun _ => List.mem_cons_self _ _, by simp⟩
        | succ j =>
          simp only [List.getElem?_cons_succ] at hu hi hc
          have hrec := ih ins cs (n + 1) j u input c hu hi hc
          have hadd : n + (j + 1) = (n + 1) + j := by omega
          simp only [sc_update_uniforms, hadd]
          cases hch : sc_uniform_changed input0 c0 u0.v
          · simp only [Bool.false_eq_true, if_false]
            exact ⟨hrec.1, hrec.2.1, by simpa using hrec.2.2⟩
          · simp only [eq_self_iff_true, if_true]
            have hne : (n == (n + 1) + j) = false := by
              simp only [beq_eq_false_iff_ne, ne_eq]
              omega
            refine ⟨?_, ?_, ?_⟩
            · simpa [List.any_cons, hne] using hrec.1
            · intro hch2
              exact List.mem_cons_of_mem _ (hrec.2.1 hch2)
            · simpa using hrec.2.2

/-- A found index is within the pool. -/
theorem sc_find_entry_lt :
    ∀ (es : List ScEntry) (key : String) (i : Nat),
      sc_find_entry es key = some i → i < es.length := by
  intro es
  induction es with
  | nil => intro key i h; cases h
  | cons e rest ih =>
    intro key i h
    simp only [sc_find_entry] at h
    by_cases hk : (e.total == key) = true
    · rw [if_pos hk] at h
      cases h
      simp
    · rw [if_neg hk] at h
      cases hr : sc_find_entry rest key with
      | none => rw [hr] at h; cases h
      | some j =>
        rw [hr] at h
        simp only [Option.map_some', Option.some.injEq] at h
        subst h
        have hj := ih key j hr
        simp only [List.length_cons]
        omega

/-- The found entry exists and matches the key byte for byte. -/
theorem sc_find_entry_total :
    ∀ (es : List ScEntry) (key : String) (i : Nat),
      sc_find_entry es key = some i → ∃ e, es[i]? = some e ∧ e.total = key := by
  intro es
  induction es with
  | nil => intro key i h; cases h
  | cons e rest ih =>
    intro key i h
    simp only [sc_find_entry] at h
    by_cases hk : (e.total == key) = true
    · rw [if_pos hk] at h
      cases h
      exact ⟨e, by simp, by simpa using hk⟩
    · rw [if_neg hk] at h
      cases hr : sc_find_entry rest key with
      | none => rw [hr] at h; cases h
      | some j =>
        rw [hr] at h
        simp only [Option.map_some', Option.some.injEq] at h
        subst h
        obtain ⟨e2, he2, ht⟩ := ih key j hr
        exact ⟨e2, by simpa using he2, ht⟩

/-- Replacing an entry by one with the same key leaves the lookup unchanged. -/
theorem sc_find_entry_set :
    ∀ (es : List ScEntry) (key : String) (i : Nat) (e e2 : ScEntry),
      es[i]? = some e → e2.total = e.total →
      sc_find_entry (es.set i e2) key = sc_find_entry es key := by
  intro es
  induction es with
  | nil => intro key i e e2 he _; simp at he
  | cons e0 rest ih =>
    intro key i e e2 he ht
    cases i with
    | zero =>
      simp only [List.getElem?_cons_zero, Option.some.injEq] at he
      subst he
      simp only [List.set_cons_zero, sc_find_entry, ht]
    | succ j =>
      simp only [List.getElem?_cons_succ] at he
      simp only [List.set_cons_succ, sc_find_entry, ih key j e e2 he ht]

/-- Appending one entry to a pool that has no match for the key. -/
theorem sc_find_entry_append_none :
    ∀ (es : List ScEntry) (key : String) (en : ScEntry),
      sc_find_entry es key = none →
      sc_find_entry (es ++ [en]) key =
        if en.total == key then some es.length else none := by
  intro es
  induction es with
  | nil =>
    intro key en _
    by_cases hk : (en.total == key) = true
    · simp [sc_find_entry, hk]
    · simp [sc_find_entry, hk]
  | cons e0 rest ih =>
    intro key en h
    simp only [sc_find_entry] at h
    by_cases hk : (e0.total == key) = true
    · rw [if_pos hk] at h
      cases h
    · rw [if_neg hk] at h
      have hrest : sc_find_entry rest key = none := by
        cases hr : sc_find_entry rest key with
        | none => rfl
        | some j => rw [hr] at h; cases h
      by_cases hk2 : (en.total == key) = true
      · simp [sc_find_entry, hk, hk2, ih key en hrest]
      · simp [sc_find_entry, hk, hk2, ih key en hrest]

/-- Setting the appended last element of a list. -/
theorem list_set_concat {α : Type} (l : List α) (a b : α) :
    (l ++ [a]).set l.length b = l ++ [b] := by
  induction l with
  | nil => rfl
  | cons x xs ih => simp [List.set_cons_succ, ih]

/-- Lookup of the appended last element of a list. -/
theorem list_getElem?_concat {α : Type} (l : List α) (a : α) :
    (l ++ [a])[l.length]? = some a := by
  induction l with
  | nil => rfl
  | cons x xs ih => simp

/-- Lookup after an in-bounds in-place update. -/
theorem list_getElem?_set_self {α : Type} :
    ∀ (l : List α) (i : Nat) (a : α), i < l.length → (l.set i a)[i]? = some a := by
  intro l
  induction l with
  | nil => intro i a h; exact absurd h (Nat.not_lt_zero i)
  | cons x xs ih =>
    intro i a h
    cases i with
    | zero => simp
    | succ j => simpa using ih j a (by simpa using h)

/-- Bookkeeping of `sc_create_pass` on the cache state: the entry pool, the
accumulated uniforms and the backend are untouched; the create counter gains
one and the log exactly one event. -/
theorem sc_create_pass_fst (sc : GlShaderCache) (e : ScEntry) :
    (sc_create_pass sc e).1.entries = sc.entries ∧
    (sc_create_pass sc e).1.uniforms = sc.uniforms ∧
    (sc_create_pass sc e).1.ra = sc.ra ∧
    (sc_create_pass sc e).1.exts = sc.exts ∧
    (sc_create_pass sc e).1.current_shader = sc.current_shader ∧
    (sc_create_pass sc e).1.create_count = sc.create_count + 1 ∧
    ∃ ev, (sc_create_pass sc e).1.ra_log = sc.ra_log ++ [ev] := by
  simp only [sc_create_pass]
  by_cases hok : sc.ra.createOk sc.create_count = true
  · rw [if_pos hok]
    exact ⟨rfl, rfl, rfl, rfl, rfl, rfl, _, rfl⟩
  · rw [if_neg hok]
    exact ⟨rfl, rfl, rfl, rfl, rfl, rfl, _, rfl⟩

/-- Bookkeeping of `sc_create_pass` on the entry: only the pass field can
change. -/
theorem sc_create_pass_snd (sc : GlShaderCache) (e : ScEntry) :
    (sc_create_pass sc e).2.total = e.total ∧
    (sc_create_pass sc e).2.cached_uniforms = e.cached_uniforms := by
  simp only [sc_create_pass]
  by_cases hok : sc.ra.createOk sc.create_count = true
  · rw [if_pos hok]
    exact ⟨rfl, rfl⟩
  · rw [if_neg hok]
    exact ⟨rfl, rfl⟩

/-- Appending an entry and selecting it: the pool keeps its prefix, the new
entry keeps its key and snapshot length, and the selection either silently
keeps the previous current shader (entry without a pass) or points at the
appended entry. -/
theorem sc_append_entry_after (scA : GlShaderCache) (en0 : ScEntry) (sc2 : GlShaderCache)
    (h : sc_after_entry { scA with entries := scA.entries ++ [en0] }
      (({ scA with entries := scA.entries ++ [en0] } : GlShaderCache).entries.length - 1) =
      some sc2) :
    ∃ en, sc2.entries = scA.entries ++ [en] ∧
      en.total = en0.total ∧
      en.cached_uniforms.length = en0.cached_uniforms.length ∧
      sc2.uniforms = scA.uniforms ∧
      sc2.ra = scA.ra ∧
      sc2.exts = scA.exts ∧
      sc2.create_count = scA.create_count ∧
      sc2.ra_log = scA.ra_log ∧
      ((en.pass = none ∧ sc2.current_shader = scA.current_shader) ∨
       (∃ pass, en.pass = some pass ∧
          scA.uniforms.length = pass.params.inputs.length ∧
          sc2.current_shader = some scA.entries.length)) := by
  rw [show ({ scA with entries := scA.entries ++ [en0] } : GlShaderCache).entries.length - 1
      = scA.entries.length by simp] at h
  obtain ⟨e, he, hcase⟩ := sc_after_entry_inv _ _ _ h
  have he2 : en0 = e := by
    rw [show ({ scA with entries := scA.entries ++ [en0] } : GlShaderCache).entries
        = scA.entries ++ [en0] from rfl, list_getElem?_concat] at he
    exact Option.some.inj he
  subst he2
  rcases hcase with ⟨hp, rfl⟩ | ⟨pass, hp, h1, h2, rfl⟩
  · exact ⟨en0, rfl, rfl, rfl, rfl, rfl, rfl, rfl, rfl, Or.inl ⟨hp, rfl⟩⟩
  · refine ⟨{ en0 with cached_uniforms :=
        (sc_update_uniforms
          ({ scA with entries := scA.entries ++ [en0] } : GlShaderCache).uniforms
          pass.params.inputs en0.cached_uniforms 0).2 },
      ?_, rfl, ?_, rfl, rfl, rfl, rfl, rfl, Or.inr ⟨pass, hp, h2, rfl⟩⟩
    · exact list_set_concat _ _ _
    · exact sc_update_uniforms_length _ _ _ 0 h2 h1

/-- Inversion of the allocation core of the miss branch: the pool gains
exactly the new entry, keyed by the combined hash, with one snapshot slot per
pending uniform; the create counter gains one and the log one event. -/
theorem sc_insert_core_inv (scF : GlShaderCache) (key : String) (sc2 : GlShaderCache)
    (h : sc_insert_core scF key = some sc2) :
    ∃ ev en,
      sc2.entries = scF.entries ++ [en] ∧
      en.total = key ∧
      en.cached_uniforms.length = scF.uniforms.length ∧
      sc2.uniforms = scF.uniforms ∧
      sc2.ra = scF.ra ∧
      sc2.exts = scF.exts ∧
      sc2.create_count = scF.create_count + 1 ∧
      sc2.ra_log = scF.ra_log ++ [ev] ∧
      ((en.pass = none ∧ sc2.current_shader = scF.current_shader) ∨
       (∃ pass, en.pass = some pass ∧
          scF.uniforms.length = pass.params.inputs.length ∧
          sc2.current_shader = some scF.entries.length)) := by
  simp only [sc_insert_core] at h
  obtain ⟨en, hent, htot, hclen, hunif, hra, hexts, hcc, hlog, hbranch⟩ :=
    sc_append_entry_after
      (sc_create_pass
        { scF with params.inputs := scF.params.inputs ++ scF.uniforms.map (fun u => u.input) }
        { total := key, cached_uniforms := scF.uniforms.map (fun _ => zeroVal) }).1
      (sc_create_pass
        { scF with params.inputs := scF.params.inputs ++ scF.uniforms.map (fun u => u.input) }
        { total := key, cached_uniforms := scF.uniforms.map (fun _ => zeroVal) }).2
      sc2 h
  obtain ⟨hE, hU, hR, hX, hCS, hCC2, ev, hLG⟩ :=
    sc_create_pass_fst
      { scF with params.inputs := scF.params.inputs ++ scF.uniforms.map (fun u => u.input) }
      { total := key, cached_uniforms := scF.uniforms.map (fun _ => zeroVal) }
  obtain ⟨hT2, hC2⟩ :=
    sc_create_pass_snd
      { scF with params.inputs := scF.params.inputs ++ scF.uniforms.map (fun u => u.input) }
      { total := key, cached_uniforms := scF.uniforms.map (fun _ => zeroVal) }
  refine ⟨ev, en, ?_, ?_, ?_, ?_, ?_, ?_, ?_, ?_, ?_⟩
  · rw [hent, hE]
  · rw [htot, hT2]
  · rw [hclen, hC2]
    simp
  · rw [hunif, hU]
  · rw [hra, hR]
  · rw [hexts, hX]
  · rw [hcc, hCC2]
  · rw [hlog, hLG]
  · rcases hbranch with ⟨hp, hcs⟩ | ⟨pass, hp, hlen, hcs⟩
    · exact Or.inl ⟨hp, by rw [hcs, hCS]⟩
    · refine Or.inr ⟨pass, hp, ?_, ?_⟩
      · exact hU ▸ hlen
      · rw [hcs, hE]

/-- Inversion of the cache-miss branch: a full pool is emptied first (its
passes destroyed in the log), an under-capacity pool is kept; then exactly the
new keyed entry is appended. -/
theorem sc_insert_entry_inv (sc : GlShaderCache) (key : String) (sc2 : GlShaderCache)
    (h : sc_insert_entry sc key = some sc2) :
    ∃ ev en,
      sc2.entries = (if sc.entries.length = SC_MAX_ENTRIES then [] else sc.entries) ++ [en] ∧
      en.total = key ∧
      en.cached_uniforms.length = sc.uniforms.length ∧
      sc2.uniforms = sc.uniforms ∧
      sc2.ra = sc.ra ∧
      sc2.exts = sc.exts ∧
      sc2.create_count = sc.create_count + 1 ∧
      sc2.ra_log = (if sc.entries.length = SC_MAX_ENTRIES
          then sc.ra_log ++ sc.entries.filterMap
            (fun e => e.pass.map (fun p => RaEvent.renderpass_destroy p.id))
          else sc.ra_log) ++ [ev] ∧
      ((en.pass = none ∧ sc2.current_shader = sc.current_shader) ∨
       (∃ pass, en.pass = some pass ∧
          sc.uniforms.length = pass.params.inputs.length ∧
          sc2.current_shader = some (if sc.entries.length = SC_MAX_ENTRIES
            then 0 else sc.entries.length))) := by
  unfold sc_insert_entry at h
  by_cases hfull : sc.entries.length = SC_MAX_ENTRIES
  · rw [if_pos (show (sc.entries.length == SC_MAX_ENTRIES) = true by simp [hfull])] at h
    obtain ⟨ev, en, h1, h2, h3, h4, h5, h6, h7, h8, h9⟩ := sc_insert_core_inv _ _ _ h
    simp only [if_pos hfull]
    exact ⟨ev, en, h1, h2, h3, h4, h5, h6, h7, h8, h9⟩
  · rw [if_neg (show ¬(sc.entries.length == SC_MAX_ENTRIES) = true by simp [hfull])] at h
    obtain ⟨ev, en, h1, h2, h3, h4, h5, h6, h7, h8, h9⟩ := sc_insert_core_inv _ _ _ h
    simp only [if_neg hfull]
    exact ⟨ev, en, h1, h2, h3, h4, h5, h6, h7, h8, h9⟩

/-- C2.  Cache eviction is full-pool: the entry pool is capped at
`SC_MAX_ENTRIES = 48` entries, so every successful generate leaves between 1
and 48 entries; and a cache miss on an exactly-full pool flushes the whole
pool — the log gains a destroy event for every entry holding a pass, and the
pool afterwards holds only the freshly inserted entry (keyed by the generated
hash), not merely one entry fewer. -/
theorem c2_full_pool_flush (sc : GlShaderCache) (ty : RaRenderpassType)
    (sc2 : GlShaderCache)
    (hcap : sc.entries.length ≤ SC_MAX_ENTRIES)
    (h : gl_sc_generate sc ty = some sc2) :
    (1 ≤ sc2.entries.length ∧ sc2.entries.length ≤ SC_MAX_ENTRIES) ∧
    (∀ key, sc_key { sc with params.type := ty } ty = some key →
      sc_find_entry sc.entries key = none →
      sc.entries.length = SC_MAX_ENTRIES →
      (∃ e, sc2.entries = [e] ∧ e.total = key) ∧
      (∃ tail, sc2.ra_log = sc.ra_log ++ sc.entries.filterMap
        (fun e => e.pass.map (fun p => RaEvent.renderpass_destroy p.id)) ++ tail)) := by
  obtain ⟨hnr, key0, frag, vert, comp, hasm⟩ := gl_sc_generate_some_inv sc ty sc2 h
  have hkey0 : sc_key { sc with params.type := ty } ty = some key0 := by
    unfold sc_key
    rw [hasm]
    rfl
  cases hfind : sc_find_entry sc.entries key0 with
  | some i =>
    rw [gl_sc_generate_hit sc ty key0 frag vert comp i hnr hasm hfind] at h
    obtain ⟨e, he, hcase⟩ := sc_after_entry_inv _ _ _ h
    have hlt := sc_find_entry_lt sc.entries key0 i hfind
    have hlen : sc2.entries.length = sc.entries.length := by
      rcases hcase with ⟨_, rfl⟩ | ⟨pass, hp, h1, h2, rfl⟩
      · rfl
      · simp
    refine ⟨⟨by omega, by omega⟩, ?_⟩
    intro key hkey hfnone _
    have hkk : key = key0 := by
      rw [hkey0] at hkey
      exact (Option.some.inj hkey).symm
    subst hkk
    rw [hfnone] at hfind
    exact Option.noConfusion hfind
  | none =>
    rw [gl_sc_generate_miss sc ty key0 frag vert comp hnr hasm hfind] at h
    obtain ⟨ev, en, h1, h2, h3, h4, h5, h6, h7, h8, h9⟩ := sc_insert_entry_inv _ _ _ h
    simp only [sc_mid_entries] at h1
    simp only [sc_mid_entries, sc_mid_ra_log] at h8
    by_cases hfull : sc.entries.length = SC_MAX_ENTRIES
    · rw [if_pos hfull] at h1
      rw [if_pos hfull] at h8
      refine ⟨⟨?_, ?_⟩, ?_⟩
      · rw [h1]
        simp
      · rw [h1]
        simp only [List.nil_append, List.length_cons, List.length_nil]
        decide
      · intro key hkey hfnone hfull2
        have hkk : key = key0 := by
          rw [hkey0] at hkey
          exact (Option.some.inj hkey).symm
        subst hkk
        exact ⟨⟨en, by simpa using h1, h2⟩, [ev], h8⟩
    · rw [if_neg hfull] at h1
      refine ⟨⟨?_, ?_⟩, ?_⟩
      · rw [h1]
        simp
      · rw [h1]
        simp only [List.length_append, List.length_cons, List.length_nil]
        omega
      · intro key hkey hfnone hfull2
        exact absurd hfull2 hfull

/-- Concrete eviction run: the 48-entry pool `sc_full` is at capacity, the
generated key misses, and the post-generate pool obeys the flush bounds. -/
theorem c2_witness :
    sc_full.entries.length ≤ SC_MAX_ENTRIES ∧
    sc_key { sc_full with params.type := RaRenderpassType.raster }
      RaRenderpassType.raster = some key_full ∧
    sc_find_entry sc_full.entries key_full = none ∧
    sc_full.entries.length = SC_MAX_ENTRIES ∧
    ((1 ≤ sc_full_gen.entries.length ∧ sc_full_gen.entries.length ≤ SC_MAX_ENTRIES) ∧
     (∀ key, sc_key { sc_full with params.type := RaRenderpassType.raster }
          RaRenderpassType.raster = some key →
        sc_find_entry sc_full.entries key = none →
        sc_full.entries.length = SC_MAX_ENTRIES →
        (∃ e, sc_full_gen.entries = [e] ∧ e.total = key) ∧
        (∃ tail, sc_full_gen.ra_log = sc_full.ra_log ++ sc_full.entries.filterMap
          (fun e => e.pass.map (fun p => RaEvent.renderpass_destroy p.id)) ++ tail))) :=
  ⟨by decide, by rfl, by rfl, by decide,
   c2_full_pool_flush sc_full RaRenderpassType.raster sc_full_gen (by decide) (by rfl)⟩

/-- C3.  Change-detection on uniforms: on a generate that hits a cache entry
holding a valid pass, a declared uniform appears in the value list handed to
the next run exactly when its bytes differ from the entry's last-seen snapshot
over the input's data size (size-0 object types always count as changed); an
included uniform carries its new value, and the entry's snapshot is updated to
the new value (and kept byte-identical otherwise). -/
theorem c3_uniform_change_detection (sc : GlShaderCache) (ty : RaRenderpassType)
    (sc2 : GlShaderCache) (key : String) (i : Nat) (e : ScEntry) (pass : RaRenderpass)
    (hkey : sc_key { sc with params.type := ty } ty = some key)
    (hfind : sc_find_entry sc.entries key = some i)
    (he : sc.entries[i]? = some e)
    (hp : e.pass = some pass)
    (h : gl_sc_generate sc ty = some sc2) :
    ∀ k u input c, sc.uniforms[k]? = some u →
      pass.params.inputs[k]? = some input →
      e.cached_uniforms[k]? = some c →
      ((sc2.values.any (fun v => v.index == k)) = sc_uniform_changed input c u.v ∧
       (sc_uniform_changed input c u.v = true →
         ({ index := k, data := u.v } : RaRenderpassInputVal) ∈ sc2.values) ∧
       (sc2.entries[i]?.map (fun e2 => e2.cached_uniforms[k]?)) =
         some (some (if sc_uniform_changed input c u.v then u.v else c))) := by
  obtain ⟨hnr, key0, frag, vert, comp, hasm⟩ := gl_sc_generate_some_inv sc ty sc2 h
  have hkey0 : sc_key { sc with params.type := ty } ty = some key0 := by
    unfold sc_key
    rw [hasm]
    rfl
  have hkk : key = key0 := by
    rw [hkey0] at hkey
    exact (Option.some.inj hkey).symm
  subst hkk
  rw [gl_sc_generate_hit sc ty key frag vert comp i hnr hasm hfind] at h
  obtain ⟨e2, he2, hcase⟩ := sc_after_entry_inv _ _ _ h
  have hee : e2 = e := by
    rw [show (sc_mid { sc with params.type := ty } ty frag vert comp).entries
        = sc.entries from rfl, he] at he2
    exact (Option.some.inj he2).symm
  subst e2
  have hilt : i < sc.entries.length := sc_find_entry_lt sc.entries key i hfind
  rcases hcase with ⟨hpn, rfl⟩ | ⟨pass2, hp2, h1, h2, rfl⟩
  · rw [hp] at hpn
    exact Option.noConfusion hpn
  · have hpp : pass2 = pass := by
      rw [hp] at hp2
      exact (Option.some.inj hp2).symm
    subst pass2
    intro k u input c hu hi hc
    have hspec := sc_update_uniforms_spec sc.uniforms pass.params.inputs
      e.cached_uniforms 0 k u input c hu hi hc
    simp only [sc_mid_uniforms, sc_mid_entries]
    refine ⟨?_, ?_, ?_⟩
    · have hA := hspec.1
      simp only [Nat.zero_add] at hA
      exact hA
    · intro hch
      have hB := hspec.2.1 hch
      simp only [Nat.zero_add] at hB
      exact hB
    · rw [list_getElem?_set_self sc.entries i
        { e with cached_uniforms := (sc_update_uniforms sc.uniforms
            pass.params.inputs e.cached_uniforms 0).2 } hilt,
        Option.map_some']
      simp only [Option.some.injEq]
      exact hspec.2.2

/-- Concrete change-detection run: a cache hit on the exposure entry whose
"exposure" float changed from bit pattern 1 to 2, so the value list carries
index 0 and the snapshot is updated. -/
theorem c3_witness :
    (sc_key { sc_exposure_hit with params.type := RaRenderpassType.raster }
      RaRenderpassType.raster = some key_exposure ∧
     sc_find_entry sc_exposure_hit.entries key_exposure = some 0 ∧
     sc_uniform_changed input_exposure (writeWords zeroVal [1]) uni_exposure.v = true) ∧
    ((sc_exposure_gen.values.any (fun v => v.index == 0)) =
        sc_uniform_changed input_exposure (writeWords zeroVal [1]) uni_exposure.v ∧
     (sc_uniform_changed input_exposure (writeWords zeroVal [1]) uni_exposure.v = true →
       ({ index := 0, data := uni_exposure.v } : RaRenderpassInputVal) ∈
         sc_exposure_gen.values) ∧
     (sc_exposure_gen.entries[0]?.map (fun e2 => e2.cached_uniforms[0]?)) =
       some (some (if sc_uniform_changed input_exposure (writeWords zeroVal [1]) uni_exposure.v
         then uni_exposure.v else writeWords zeroVal [1]))) :=
  ⟨⟨by rfl, by rfl, by decide⟩,
   c3_uniform_change_detection sc_exposure_hit RaRenderpassType.raster sc_exposure_gen
     key_exposure 0 entry_exposure pass_exposure (by rfl) (by rfl) (by rfl) (by rfl) (by rfl)
     0 uni_exposure input_exposure (writeWords zeroVal [1]) (by rfl) (by rfl) (by rfl)⟩

/-- Shader assembly depends only on the backend, the extensions and the
accumulated prelude/header/body text, uniform declarations, vertex layout and
blend state. -/
theorem sc_assemble_of_congr (a b : GlShaderCache) (ty : RaRenderpassType)
    (h1 : a.params.vertex_attribs = b.params.vertex_attribs)
    (h2 : a.ra = b.ra) (h3 : a.exts = b.exts) (h4 : a.uniforms = b.uniforms)
    (h5 : a.prelude_text = b.prelude_text) (h6 : a.header_text = b.header_text)
    (h7 : a.text = b.text) (h8 : a.params.enable_blend = b.params.enable_blend)
    (h9 : a.params.blend_src_rgb = b.params.blend_src_rgb)
    (h10 : a.params.blend_dst_rgb = b.params.blend_dst_rgb)
    (h11 : a.params.blend_src_alpha = b.params.blend_src_alpha)
    (h12 : a.params.blend_dst_alpha = b.params.blend_dst_alpha) :
    sc_assemble_of a ty = sc_assemble_of b ty := by
  unfold sc_assemble_of
  rw [h1, h2, h3, h4, h5, h6, h7, h8, h9, h10, h11, h12]

/-- The current pass after selecting a freshly updated entry is that entry's
pass. -/
theorem sc_current_pass_set (scM : GlShaderCache) (i : Nat) (e2 : ScEntry)
    (v : List RaRenderpassInputVal) (hi : i < scM.entries.length) :
    sc_current_pass
      { scM with
        values := v
        entries := scM.entries.set i e2
        current_shader := some i } = e2.pass := by
  unfold sc_current_pass
  simp only [Option.some_bind]
  rw [list_getElem?_set_self scM.entries i e2 hi]
  simp only [Option.some_bind]

/-- C1.  Shader-cache idempotence: when a generate succeeds and makes a pass
current, resetting and re-accumulating byte-identical prelude/header/body
text, uniform declarations, vertex layout and blend state makes the next
generate find an entry by byte-equality of the combined key and reuse its
render pass: the create counter and the backend log are unchanged (no second
`renderpass_create`), and the current pass is the same. -/
theorem c1_shader_cache_idempotence (sc : GlShaderCache) (ty : RaRenderpassType)
    (sc2 : GlShaderCache) (key : String)
    (hcs : sc.current_shader = none)
    (hkey : sc_key { sc with params.type := ty } ty = some key)
    (h : gl_sc_generate sc ty = some sc2)
    (hcur : (sc_current_pass sc2).isSome = true) :
    ∃ sc3, gl_sc_generate (sc_reaccumulate sc sc2) ty = some sc3 ∧
      sc3.create_count = sc2.create_count ∧
      sc3.ra_log = sc2.ra_log ∧
      (∃ i, sc_find_entry (sc_reaccumulate sc sc2).entries key = some i ∧
        sc3.current_shader = some i) ∧
      sc_current_pass sc3 = sc_current_pass sc2 := by
  obtain ⟨hnr, key0, frag, vert, comp, hasm⟩ := gl_sc_generate_some_inv sc ty sc2 h
  have hkey0 : sc_key { sc with params.type := ty } ty = some key0 := by
    unfold sc_key
    rw [hasm]
    rfl
  have hkk : key = key0 := by
    rw [hkey0] at hkey
    exact (Option.some.inj hkey).symm
  subst key0
  cases hfind : sc_find_entry sc.entries key with
  | some i =>
    rw [gl_sc_generate_hit sc ty key frag vert comp i hnr hasm hfind] at h
    obtain ⟨e2, he2, hcase⟩ := sc_after_entry_inv _ _ _ h
    have he2s : sc.entries[i]? = some e2 := he2
    have hilt : i < sc.entries.length := sc_find_entry_lt sc.entries key i hfind
    rcases hcase with ⟨hpn, hsc2⟩ | ⟨pass, hp, h1, h2, hsc2⟩
    · exfalso
      have hnone : sc_current_pass sc2 = none := by
        rw [hsc2]
        unfold sc_current_pass
        rw [show (sc_mid { sc with params.type := ty } ty frag vert comp).current_shader
            = sc.current_shader from rfl, hcs]
        rfl
      rw [hnone] at hcur
      simp at hcur
    · have h1s : sc.uniforms.length = e2.cached_uniforms.length := h1
      have h2s : sc.uniforms.length = pass.params.inputs.length := h2
      have hents : sc2.entries = sc.entries.set i
          { e2 with cached_uniforms := (sc_update_uniforms sc.uniforms
              pass.params.inputs e2.cached_uniforms 0).2 } := by
        rw [hsc2]
        rfl
      have hcs2 : sc2.current_shader = some i := by
        rw [hsc2]
      have hfind2 : sc_find_entry sc2.entries key = some i := by
        rw [hents, sc_find_entry_set sc.entries key i e2
          { e2 with cached_uniforms := (sc_update_uniforms sc.uniforms
              pass.params.inputs e2.cached_uniforms 0).2 } he2s rfl]
        exact hfind
      have hpE : ({ e2 with cached_uniforms := (sc_update_uniforms sc.uniforms
          pass.params.inputs e2.cached_uniforms 0).2 } : ScEntry).pass = some pass := hp
      have hasm2 : sc_assemble_of { sc_reaccumulate sc sc2 with params.type := ty } ty
          = some (key, frag, vert, comp) := by
        rw [sc_assemble_of_congr { sc_reaccumulate sc sc2 with params.type := ty }
          { sc with params.type := ty } ty rfl (by rw [hsc2]; rfl) (by rw [hsc2]; rfl)
          rfl rfl rfl rfl rfl rfl rfl rfl rfl]
        exact hasm
      have hfindR : sc_find_entry (sc_reaccumulate sc sc2).entries key = some i := hfind2
      have heM : (sc_mid { sc_reaccumulate sc sc2 with params.type := ty }
          ty frag vert comp).entries[i]? = some
          { e2 with cached_uniforms := (sc_update_uniforms sc.uniforms
              pass.params.inputs e2.cached_uniforms 0).2 } := by
        rw [show (sc_mid { sc_reaccumulate sc sc2 with params.type := ty }
            ty frag vert comp).entries = sc2.entries from rfl, hents]
        exact list_getElem?_set_self sc.entries i _ hilt
      have g1 : (sc_mid { sc_reaccumulate sc sc2 with params.type := ty }
          ty frag vert comp).uniforms.length =
          ({ e2 with cached_uniforms := (sc_update_uniforms sc.uniforms
              pass.params.inputs e2.cached_uniforms 0).2 } : ScEntry).cached_uniforms.length := by
        rw [show (sc_mid { sc_reaccumulate sc sc2 with params.type := ty }
            ty frag vert comp).uniforms = sc.uniforms from rfl,
          show ({ e2 with cached_uniforms := (sc_update_uniforms sc.uniforms
              pass.params.inputs e2.cached_uniforms 0).2 } : ScEntry).cached_uniforms
            = (sc_update_uniforms sc.uniforms pass.params.inputs e2.cached_uniforms 0).2
            from rfl,
          sc_update_uniforms_length sc.uniforms pass.params.inputs e2.cached_uniforms 0 h2s h1s]
        exact h1s
      have g2 : (sc_mid { sc_reaccumulate sc sc2 with params.type := ty }
          ty frag vert comp).uniforms.length = pass.params.inputs.length := h2s
      have hrun := sc_after_entry_run
        (sc_mid { sc_reaccumulate sc sc2 with params.type := ty } ty frag vert comp) i
        { e2 with cached_uniforms := (sc_update_uniforms sc.uniforms
            pass.params.inputs e2.cached_uniforms 0).2 }
        pass heM hpE g1 g2
      have hcp2 : sc_current_pass sc2 = some pass := by
        unfold sc_current_pass
        rw [hcs2]
        simp only [Option.some_bind]
        rw [hents, list_getElem?_set_self sc.entries i _ hilt]
        simp only [Option.some_bind]
        exact hpE
      have hb : i < (sc_mid { sc_reaccumulate sc sc2 with params.type := ty }
          ty frag vert comp).entries.length := by
        rw [show (sc_mid { sc_reaccumulate sc sc2 with params.type := ty }
            ty frag vert comp).entries = sc2.entries from rfl, hents]
        simpa using hilt
      refine ⟨_, (gl_sc_generate_hit (sc_reaccumulate sc sc2) ty key frag vert comp i
        rfl hasm2 hfindR).trans hrun, rfl, rfl, ⟨i, hfindR, rfl⟩, ?_⟩
      rw [hcp2, sc_current_pass_set _ i _ _ hb]
      exact hpE
  | none =>
    rw [gl_sc_generate_miss sc ty key frag vert comp hnr hasm hfind] at h
    obtain ⟨ev, en, h1, h2, h3, h4, h5, h6, h7, h8, h9⟩ := sc_insert_entry_inv _ _ _ h
    simp only [sc_mid_entries, sc_mid_uniforms, sc_mid_ra, sc_mid_exts,
      sc_mid_current_shader] at h1 h3 h4 h5 h6 h9
    rcases h9 with ⟨hpn, hcs9⟩ | ⟨pass, hp, hlen, hcs9⟩
    · exfalso
      have hnone : sc_current_pass sc2 = none := by
        unfold sc_current_pass
        rw [hcs9, hcs]
        rfl
      rw [hnone] at hcur
      simp at hcur
    · have hbase : sc_find_entry
          (if sc.entries.length = SC_MAX_ENTRIES then [] else sc.entries) key = none := by
        by_cases hfull : sc.entries.length = SC_MAX_ENTRIES
        · rw [if_pos hfull]
          rfl
        · rw [if_neg hfull]
          exact hfind
      have hidx : (if sc.entries.length = SC_MAX_ENTRIES
            then ([] : List ScEntry) else sc.entries).length
          = (if sc.entries.length = SC_MAX_ENTRIES then 0 else sc.entries.length) := by
        by_cases hfull : sc.entries.length = SC_MAX_ENTRIES
        · rw [if_pos hfull, if_pos hfull]
          rfl
        · rw [if_neg hfull, if_neg hfull]
      have hfind2 : sc_find_entry sc2.entries key
          = some (if sc.entries.length = SC_MAX_ENTRIES then 0 else sc.entries.length) := by
        rw [h1, sc_find_entry_append_none _ key en hbase, ← hidx]
        simp [h2]
      have hget2 : sc2.entries[(if sc.entries.length = SC_MAX_ENTRIES
          then 0 else sc.entries.length)]? = some en := by
        rw [h1, ← hidx, list_getElem?_concat]
      have hasm2 : sc_assemble_of { sc_reaccumulate sc sc2 with params.type := ty } ty
          = some (key, frag, vert, comp) := by
        rw [sc_assemble_of_congr { sc_reaccumulate sc sc2 with params.type := ty }
          { sc with params.type := ty } ty rfl h5 h6 rfl rfl rfl rfl rfl rfl rfl rfl rfl]
        exact hasm
      have hfindR : sc_find_entry (sc_reaccumulate sc sc2).entries key
          = some (if sc.entries.length = SC_MAX_ENTRIES then 0 else sc.entries.length) :=
        hfind2
      have heM : (sc_mid { sc_reaccumulate sc sc2 with params.type := ty }
          ty frag vert comp).entries[(if sc.entries.length = SC_MAX_ENTRIES
            then 0 else sc.entries.length)]? = some en := hget2
      have g1 : (sc_mid { sc_reaccumulate sc sc2 with params.type := ty }
          ty frag vert comp).uniforms.length = en.cached_uniforms.length := by
        rw [show (sc_mid { sc_reaccumulate sc sc2 with params.type := ty }
            ty frag vert comp).uniforms = sc.uniforms from rfl]
        exact h3.symm
      have g2 : (sc_mid { sc_reaccumulate sc sc2 with params.type := ty }
          ty frag vert comp).uniforms.length = pass.params.inputs.length := hlen
      have hrun := sc_after_entry_run
        (sc_mid { sc_reaccumulate sc sc2 with params.type := ty } ty frag vert comp)
        (if sc.entries.length = SC_MAX_ENTRIES then 0 else sc.entries.length)
        en pass heM hp g1 g2
      have hcp2 : sc_current_pass sc2 = some pass := by
        unfold sc_current_pass
        rw [hcs9]
        simp only [Option.some_bind]
        rw [hget2]
        simp only [Option.some_bind]
        exact hp
      have hb : (if sc.entries.length = SC_MAX_ENTRIES then 0 else sc.entries.length)
          < (sc_mid { sc_reaccumulate sc sc2 with params.type := ty }
            ty frag vert comp).entries.length := by
        rw [show (sc_mid { sc_reaccumulate sc sc2 with params.type := ty }
            ty frag vert comp).entries = sc2.entries from rfl, h1, ← hidx]
        simp
      refine ⟨_, (gl_sc_generate_hit (sc_reaccumulate sc sc2) ty key frag vert comp _
        rfl hasm2 hfindR).trans hrun, rfl, rfl, ⟨_, hfindR, rfl⟩, ?_⟩
      rw [hcp2, sc_current_pass_set _ _ _ _ hb]
      exact hp

/-- Concrete idempotence run: `sc0` generated once, reset, re-accumulated
byte-identically, generated again. -/
theorem c1_witness :
    (sc0.current_shader = none ∧
     sc_key { sc0 with params.type := RaRenderpassType.raster } RaRenderpassType.raster
       = some key_sc0 ∧
     (sc_current_pass sc0_gen).isSome = true) ∧
    (∃ sc3, gl_sc_generate (sc_reaccumulate sc0 sc0_gen) RaRenderpassType.raster = some sc3 ∧
      sc3.create_count = sc0_gen.create_count ∧
      sc3.ra_log = sc0_gen.ra_log ∧
      (∃ i, sc_find_entry (sc_reaccumulate sc0 sc0_gen).entries key_sc0 = some i ∧
        sc3.current_shader = some i) ∧
      sc_current_pass sc3 = sc_current_pass sc0_gen) :=
  ⟨⟨rfl, by rfl, by decide⟩,
   c1_shader_cache_idempotence sc0 RaRenderpassType.raster sc0_gen key_sc0
     (by rfl) (by rfl) (by rfl) (by decide)⟩
